import Mathlib

/-!
Verification of the structural time-series component algebra of
`pymc_extras/statespace/models/structural.py`.

The Python module builds linear Gaussian state-space models from composable
components.  Mutable Python collections (the lists and dicts attached to a
component) are modelled by an explicit heap (`Store`): a component holds
natural-number heap addresses into the heap, composition allocates fresh heap objects,
and `build` mutates the referenced objects in place, exactly as the Python
code does through `+=` and keyed assignment.  Fallible constructors and
operations return `Except String`.
-/

/-- A symbolic placeholder created by `pt.tensor(name, shape=shape)`
(structural.py line 448); only the name and the declared shape are relevant
to the model-assembly logic.  A `none` entry of the shape is a dynamic
(`None`) dimension. -/
structure Placeholder where
  phName : String
  phShape : List (Option Nat)
deriving DecidableEq

/-- Entry of a `param_info` dictionary: per-parameter shape, constraint and
dims metadata, as populated by the components' `populate_component_properties`
methods. -/
structure ParamInfo where
  shape : List (Option Nat)
  constraints : Option String
  dims : Option (List String)
deriving DecidableEq

/-- Entry of a `data_info` dictionary (shape and dims of an expected exogenous
data variable). -/
structure DataInfo where
  shape : List (Option Nat)
  dims : List String
deriving DecidableEq

/-- Per-component record stored in `_component_info`
(structural.py lines 398-406).  The field `kEnodg` mirrors the source's
misspelled dictionary key `"k_enodg"`.  `obsStateIdx` is the (optional)
floating-point observation-index mask `obs_state_idx`. -/
structure CompInfo where
  kStates : Nat
  kEnodg : Nat
  kPosdef : Nat
  combineHiddenStates : Bool
  obsStateIdx : Option (List Rat)
deriving DecidableEq

/-- Symbolic scalar stored in a system matrix: a numeric literal, the square
of (an element of) a parameter placeholder (for example `sigma_trend**2` on
the state-covariance diagonal), or a sinusoid `cos/sin(2*pi*r)` from the
frequency-domain transition blocks. -/
inductive MatEntry where
  | lit (q : Rat)
  | sqParam (pname : String) (idx : Nat)
  | cosTwoPi (r : Rat)
  | sinTwoPi (r : Rat)
  | negSinTwoPi (r : Rat)
deriving DecidableEq

/-- A (possibly time-varying) system matrix: a shape `(time, rows, cols)` and
an entry function (indices outside the shape are irrelevant). -/
structure Mat3 where
  shape : Nat × Nat × Nat
  entry : Nat → Nat → Nat → MatEntry

/-- A zero-valued matrix of the given shape. -/
def Mat3.zeros (shape : Nat × Nat × Nat) : Mat3 :=
  ⟨shape, fun _ _ _ => .lit 0⟩

/-- The slice of a `PytensorRepresentation` that the verified claims inspect:
the shape bookkeeping plus the transition, selection and state-covariance
matrices.  (The representation class itself lives in
`pymc_extras/statespace/core`, outside the sources under verification; its
matrices are zero-initialised with the standard state-space shapes, carrying
a leading time dimension of one.) -/
structure SSM where
  k_endog : Nat
  k_states : Nat
  k_posdef : Nat
  transition : Mat3
  selection : Mat3
  state_cov : Mat3

/-- Zero-initialised representation, as produced by
`PytensorRepresentation(k_endog=..., k_states=..., k_posdef=...)`. -/
def SSM.defaultRep (k_endog k_states k_posdef : Nat) : SSM :=
  { k_endog := k_endog
    k_states := k_states
    k_posdef := k_posdef
    transition := Mat3.zeros (1, k_states, k_states)
    selection := Mat3.zeros (1, k_states, k_posdef)
    state_cov := Mat3.zeros (1, k_posdef, k_posdef) }

/-- A heap cell: one mutable Python list or dict.  Lists of names, dicts of
coordinate lists (`coords` / `param_dims`), parameter/data info dicts,
placeholder registries and component-info tables each get a constructor. -/
inductive PyObj where
  | strList (xs : List String)
  | strListDict (d : List (String × List String))
  | paramInfoDict (d : List (String × ParamInfo))
  | dataInfoDict (d : List (String × DataInfo))
  | varDict (d : List (String × Placeholder))
  | compInfoDict (d : List (String × CompInfo))
deriving DecidableEq

/-- The heap: Python objects addressed by allocation order. -/
abbrev Store := List PyObj

/-- Read a heap cell. -/
def getObj (σ : Store) (r : Nat) : Option PyObj := σ.get? r

/-- Overwrite a heap cell in place. -/
def setObj (σ : Store) (r : Nat) (o : PyObj) : Store := σ.set r o

/-- Read a string-list cell (empty list on a dangling or ill-typed ref). -/
def getStrList (σ : Store) (r : Nat) : List String :=
  match σ.get? r with
  | some (.strList xs) => xs
  | _ => []

def getStrListDict (σ : Store) (r : Nat) : List (String × List String) :=
  match σ.get? r with
  | some (.strListDict d) => d
  | _ => []

def getParamInfoDict (σ : Store) (r : Nat) : List (String × ParamInfo) :=
  match σ.get? r with
  | some (.paramInfoDict d) => d
  | _ => []

def getDataInfoDict (σ : Store) (r : Nat) : List (String × DataInfo) :=
  match σ.get? r with
  | some (.dataInfoDict d) => d
  | _ => []

def getVarDict (σ : Store) (r : Nat) : List (String × Placeholder) :=
  match σ.get? r with
  | some (.varDict d) => d
  | _ => []

def getCompInfoDict (σ : Store) (r : Nat) : List (String × CompInfo) :=
  match σ.get? r with
  | some (.compInfoDict d) => d
  | _ => []

/-- Keyed assignment `d[k] = v` on an insertion-ordered Python dict: replace
the value in place if the key exists, otherwise append the pair. -/
def assocSet {α : Type} (d : List (String × α)) (k : String) (v : α) :
    List (String × α) :=
  if d.any (fun kv => kv.1 = k) then
    d.map (fun kv => if kv.1 = k then (k, v) else kv)
  else d ++ [(k, v)]

/-- Python's `dict.update`: keyed assignment of every pair of `e`, in order,
into `d` (last writer wins). -/
def assocUpdate {α : Type} (d e : List (String × α)) : List (String × α) :=
  e.foldl (fun acc kv => assocSet acc kv.1 kv.2) d

/-- A structural-model component (`Component`, structural.py lines 321-407):
scalar attributes are plain values, the mutable name lists, metadata dicts,
placeholder registries and the component-info table are heap references. -/
structure Component where
  name : String
  k_endog : Nat
  k_states : Nat
  k_posdef : Nat
  measurement_error : Bool
  state_names : Nat
  data_names : Nat
  shock_names : Nat
  param_names : Nat
  exog_names : Nat
  coords : Nat
  param_dims : Nat
  param_info : Nat
  data_info : Nat
  name_to_variable : Nat
  name_to_data : Nat
  component_info : Nat
  ssm : SSM

/-- The value-level contents of a component, used to allocate its heap
objects in one step. -/
structure ComponentData where
  name : String
  k_endog : Nat
  k_states : Nat
  k_posdef : Nat
  measurement_error : Bool
  state_names : List String
  data_names : List String
  shock_names : List String
  param_names : List String
  exog_names : List String
  coords : List (String × List String)
  param_dims : List (String × List String)
  param_info : List (String × ParamInfo)
  data_info : List (String × DataInfo)
  name_to_variable : List (String × Placeholder)
  name_to_data : List (String × Placeholder)
  component_info : List (String × CompInfo)
  ssm : SSM

/-- Allocate the twelve mutable objects of a component at fresh heap
addresses (`Component.__init__` binds fresh lists/dicts to the instance;
the concrete components' `populate_component_properties` then rebind some
attributes to freshly built lists/dicts, so only the final objects are
observable). -/
def allocComponent (σ : Store) (d : ComponentData) : Component × Store :=
  ({ name := d.name
     k_endog := d.k_endog
     k_states := d.k_states
     k_posdef := d.k_posdef
     measurement_error := d.measurement_error
     state_names := σ.length
     data_names := σ.length + 1
     shock_names := σ.length + 2
     param_names := σ.length + 3
     exog_names := σ.length + 4
     coords := σ.length + 5
     param_dims := σ.length + 6
     param_info := σ.length + 7
     data_info := σ.length + 8
     name_to_variable := σ.length + 9
     name_to_data := σ.length + 10
     component_info := σ.length + 11
     ssm := d.ssm },
   σ ++ [.strList d.state_names, .strList d.data_names, .strList d.shock_names,
         .strList d.param_names, .strList d.exog_names, .strListDict d.coords,
         .strListDict d.param_dims, .paramInfoDict d.param_info,
         .dataInfoDict d.data_info, .varDict d.name_to_variable,
         .varDict d.name_to_data, .compInfoDict d.component_info])

/-- The heap references held by a component. -/
def componentRefs (c : Component) : List Nat :=
  [c.state_names, c.data_names, c.shock_names, c.param_names, c.exog_names,
   c.coords, c.param_dims, c.param_info, c.data_info, c.name_to_variable,
   c.name_to_data, c.component_info]

/-- Well-formedness of a component over a store: its references are live and
address pairwise distinct objects (as is the case for every component the
library constructs). -/
def Component.WF (σ : Store) (c : Component) : Prop :=
  (∀ r ∈ componentRefs c, r < σ.length) ∧ (componentRefs c).Nodup

instance (σ : Store) (c : Component) : Decidable (c.WF σ) := by
  unfold Component.WF; infer_instance

/-- Dimension-name constants from `statespace/utils/constants.py` (not among
the sources under verification).  Modelled from the spec: only their identity
as dimension keys matters to the claims, not their exact spelling. -/
def ALL_STATE_DIM : String := "state"

def ALL_STATE_AUX_DIM : String := "state_aux"

def TIME_DIM : String := "time"

/-- Position-derivative state labels from `statespace/utils/constants.py`
(not among the sources under verification).  Modelled from the spec: the
spec's worked example fixes the first two labels as `level` and `trend`
("order-derived labels"). -/
def POSITION_DERIVATIVE_NAMES : List String :=
  ["level", "trend", "acceleration", "jerk"]

/-- Create a placeholder and register it in the component's
`_name_to_variable` registry (structural.py lines 408-450): error if the
name is not a declared parameter name, error if it is already registered,
otherwise append it to the registry and return it. -/
def make_and_register_variable (σ : Store) (c : Component) (name : String)
    (shape : List (Option Nat)) : Except String (Placeholder × Store) :=
  if name ∈ getStrList σ c.param_names then
    if ((getVarDict σ c.name_to_variable).lookup name).isSome then
      .error (name ++ " is already a registered placeholder variable")
    else
      let ph : Placeholder := ⟨name, shape⟩
      .ok (ph, setObj σ c.name_to_variable
        (.varDict (getVarDict σ c.name_to_variable ++ [(name, ph)])))
  else
    .error (name ++ " is not a model parameter. All placeholder variables should correspond to model parameters.")

/-- Create a placeholder and register it in `_name_to_data`
(structural.py lines 452-487); same contract as
`make_and_register_variable`, against the declared data names. -/
def make_and_register_data (σ : Store) (c : Component) (name : String)
    (shape : List (Option Nat)) : Except String (Placeholder × Store) :=
  if name ∈ getStrList σ c.data_names then
    if ((getVarDict σ c.name_to_data).lookup name).isSome then
      .error (name ++ " is already a registered placeholder variable")
    else
      let ph : Placeholder := ⟨name, shape⟩
      .ok (ph, setObj σ c.name_to_data
        (.varDict (getVarDict σ c.name_to_data ++ [(name, ph)])))
  else
    .error (name ++ " is not a model parameter. All placeholder variables should correspond to model parameters.")

/-- Block-diagonal stacking of two (time, rows, cols) matrices, as
`pt.linalg.block_diag` is used on the transition, selection and
state-covariance matrices in `_combine_statespace_representations`
(structural.py lines 537-550). -/
def blockDiag3 (A B : Mat3) : Mat3 :=
  ⟨(max A.shape.1 B.shape.1, A.shape.2.1 + B.shape.2.1,
    A.shape.2.2 + B.shape.2.2),
   fun t i j =>
     if i < A.shape.2.1 ∧ j < A.shape.2.2 then A.entry t i j
     else if A.shape.2.1 ≤ i ∧ A.shape.2.2 ≤ j then
       B.entry t (i - A.shape.2.1) (j - A.shape.2.2)
     else .lit 0⟩

/-- The combined representation built by
`_combine_statespace_representations` (structural.py lines 506-567),
restricted to the matrices this development carries.  The shapes come from
`_get_combined_shapes` (lines 495-504): state and shock counts add, the
endogenous count is the shared one. -/
def combineSSM (a b : Component) : SSM :=
  { k_endog := a.k_endog
    k_states := a.k_states + b.k_states
    k_posdef := a.k_posdef + b.k_posdef
    transition := blockDiag3 a.ssm.transition b.ssm.transition
    selection := blockDiag3 a.ssm.selection b.ssm.selection
    state_cov := blockDiag3 a.ssm.state_cov b.ssm.state_cov }

/-- Python's `str.startswith`, evaluated on the underlying character lists
(the built-in byte-loop implementation does not reduce definitionally, which
the concrete witnesses below rely on). -/
def strStartsWith (s pre : String) : Bool :=
  decide (pre.data = s.data.take pre.data.length)

/-- Merge two `_component_info` tables (structural.py lines 578-592):
entries whose key starts with `StateSpace` (prior compositions) are skipped,
and a duplicate component name among the remaining keys is an error. -/
def combineComponentInfoAux : List (String × CompInfo) →
    List (String × CompInfo) → Except String (List (String × CompInfo))
  | acc, [] => .ok acc
  | acc, (k, v) :: rest =>
    if strStartsWith k "StateSpace" then combineComponentInfoAux acc rest
    else if acc.any (fun kv => kv.1 == k) then
      .error ("Found duplicate component named " ++ k)
    else combineComponentInfoAux (acc ++ [(k, v)]) rest

def combineComponentInfo (xs ys : List (String × CompInfo)) :
    Except String (List (String × CompInfo)) :=
  combineComponentInfoAux [] (xs ++ ys)

/-- The value-level contents of the component produced by
`Component.__add__`: name lists concatenate, metadata dicts merge with last
writer wins (`_combine_property`), the shapes come from
`_get_combined_shapes`, the representation from
`_combine_statespace_representations`, and the source passes the literal
`k_endog=1` to the composed component. -/
def addData (σ : Store) (a b : Component) (ci : List (String × CompInfo)) :
    ComponentData :=
  { name := "StateSpace[" ++ String.intercalate ", " (ci.map Prod.fst) ++ "]"
    k_endog := 1
    k_states := a.k_states + b.k_states
    k_posdef := a.k_posdef + b.k_posdef
    measurement_error := a.measurement_error || b.measurement_error
    state_names := getStrList σ a.state_names ++ getStrList σ b.state_names
    data_names := getStrList σ a.data_names ++ getStrList σ b.data_names
    shock_names := getStrList σ a.shock_names ++ getStrList σ b.shock_names
    param_names := getStrList σ a.param_names ++ getStrList σ b.param_names
    exog_names := getStrList σ a.exog_names ++ getStrList σ b.exog_names
    coords := assocUpdate (getStrListDict σ a.coords)
      (getStrListDict σ b.coords)
    param_dims := assocUpdate (getStrListDict σ a.param_dims)
      (getStrListDict σ b.param_dims)
    param_info := assocUpdate (getParamInfoDict σ a.param_info)
      (getParamInfoDict σ b.param_info)
    data_info := assocUpdate (getDataInfoDict σ a.data_info)
      (getDataInfoDict σ b.data_info)
    name_to_variable := assocUpdate (getVarDict σ a.name_to_variable)
      (getVarDict σ b.name_to_variable)
    name_to_data := assocUpdate (getVarDict σ a.name_to_data)
      (getVarDict σ b.name_to_data)
    component_info := ci
    ssm := combineSSM a b }

/-- Component composition, `Component.__add__` (structural.py lines
599-648): combine every property of the operands, check the shapes, merge
the component-info tables, and allocate a fresh component holding the
combined values.  Raises when the operands' endogenous counts differ
(`_get_combined_shapes`), or on a duplicate component name
(`_combine_component_info`). -/
def Component.add (σ : Store) (a b : Component) :
    Except String (Component × Store) :=
  if a.k_endog ≠ b.k_endog then
    .error "Merging elements with different numbers of observed states is not supported.>"
  else
    match combineComponentInfo (getCompInfoDict σ a.component_info)
        (getCompInfoDict σ b.component_info) with
    | .error e => .error e
    | .ok ci => .ok (allocComponent σ (addData σ a b ci))

/-- `StructuralTimeSeries._add_inital_state_cov_to_properties`
(structural.py lines 142-152): append `P0` to the parameter names and insert
its dims/info entries.  In Python the list `+=` and keyed assignments mutate
the arguments in place; `Component.build` performs the corresponding heap
writes. -/
def addInitalStateCovToProperties (param_names : List String)
    (param_dims : List (String × List String))
    (param_info : List (String × ParamInfo)) (k_states : Nat) :
    List String × List (String × List String) × List (String × ParamInfo) :=
  (param_names ++ ["P0"],
   assocSet param_dims "P0" [ALL_STATE_DIM, ALL_STATE_AUX_DIM],
   assocSet param_info "P0"
     ⟨[some k_states, some k_states], some "Positive semi-definite",
      some [ALL_STATE_DIM, ALL_STATE_AUX_DIM]⟩)

/-- Modelled from the spec: `make_default_coords` (in
`statespace/models/utilities.py`, not among the sources under verification)
returns the default coordinate entries of a built model, keyed by the
standard state dimensions; the claims never inspect its contents. -/
def makeDefaultCoords (state_names shock_names : List String) :
    List (String × List String) :=
  [(ALL_STATE_DIM, state_names), (ALL_STATE_AUX_DIM, state_names),
   ("shock", shock_names)]

/-- The terminal model built from a component (`StructuralTimeSeries`,
structural.py lines 50-201): scalar attributes and value snapshots of the
component's collections taken by the constructor's `.copy()` calls. -/
structure StructuralTimeSeries where
  name : String
  k_endog : Nat
  k_states : Nat
  k_posdef : Nat
  state_names : List String
  data_names : List String
  shock_names : List String
  param_names : List String
  exog_names : List String
  param_dims : List (String × List String)
  coords : List (String × List String)
  param_info : List (String × ParamInfo)
  data_info : List (String × DataInfo)
  component_info : List (String × CompInfo)
  measurement_error : Bool
  name_to_variable : List (String × Placeholder)
  name_to_data : List (String × Placeholder)
  needs_exog_data : Bool
  ssm : SSM

/-- `Component.build` followed by `StructuralTimeSeries.__init__`
(structural.py lines 650-701 and 66-140).  The constructor reads the shapes
from the representation, mutates the component's `param_names`,
`param_dims` and `param_info` in place through
`_add_inital_state_cov_to_properties`, updates the component's `coords`
dict with the default coordinates, snapshots the collections, replaces the
state-covariance and selection matrices by zero dummies when `k_posdef == 0`
(lines 121-129, with the model-level `k_posdef` forced to `max(1, k_posdef)`),
and registers the `P0` placeholder in the model's copied registry. -/
def Component.build (σ : Store) (c : Component) (nameOpt : Option String) :
    StructuralTimeSeries × Store :=
  let mname := nameOpt.getD "data"
  let k_states := c.ssm.k_states
  let k_posdef := c.ssm.k_posdef
  let res := addInitalStateCovToProperties (getStrList σ c.param_names)
      (getStrListDict σ c.param_dims) (getParamInfoDict σ c.param_info)
      k_states
  let σ1 := setObj σ c.param_names (.strList res.1)
  let σ2 := setObj σ1 c.param_dims (.strListDict res.2.1)
  let σ3 := setObj σ2 c.param_info (.paramInfoDict res.2.2)
  let state_names := getStrList σ3 c.state_names
  let shock_names := getStrList σ3 c.shock_names
  let exog_names := getStrList σ3 c.exog_names
  let coords := assocUpdate (getStrListDict σ3 c.coords)
      (makeDefaultCoords state_names shock_names)
  let σ4 := setObj σ3 c.coords (.strListDict coords)
  let mposdef := max 1 k_posdef
  let ssm :=
    if k_posdef = 0 then
      { c.ssm with
        k_posdef := mposdef
        state_cov := Mat3.zeros (1, 1, 1)
        selection := Mat3.zeros (1, k_states, 1) }
    else c.ssm
  ({ name := mname
     k_endog := c.ssm.k_endog
     k_states := k_states
     k_posdef := mposdef
     state_names := state_names
     data_names := getStrList σ4 c.data_names
     shock_names := shock_names
     param_names := res.1
     exog_names := exog_names
     param_dims := res.2.1
     coords := coords
     param_info := res.2.2
     data_info := getDataInfoDict σ4 c.data_info
     component_info := getCompInfoDict σ4 c.component_info
     measurement_error := c.measurement_error
     name_to_variable := getVarDict σ4 c.name_to_variable ++
       [("P0", ⟨"P0", [some k_states, some k_states]⟩)]
     name_to_data := getVarDict σ4 c.name_to_data
     needs_exog_data := !exog_names.isEmpty
     ssm := ssm }, σ4)

/-- `StructuralTimeSeries._hidden_states_from_data` (structural.py lines
209-229) on one state vector: walk the component-info table, slicing the
state axis by each component's state count; a component with no
observation-index mask is skipped, a `combine_hidden_states` component
contributes the sum of the slice's entries selected by the nonzero mask
positions, and any other component contributes each entry of its slice. -/
def hiddenStatesSlices (x : List Rat) :
    List (String × CompInfo) → Nat → List Rat
  | [], _ => []
  | (_, ci) :: rest, off =>
    let X := (x.drop off).take ci.kStates
    (match ci.obsStateIdx with
     | none => []
     | some mask =>
       if ci.combineHiddenStates then
         [(((List.range ci.kStates).filter
             (fun j => mask.getD j 0 ≠ 0)).map (fun j => X.getD j 0)).sum]
       else X) ++ hiddenStatesSlices x rest (off + ci.kStates)

def hiddenStatesFromData (info : List (String × CompInfo)) (x : List Rat) :
    List Rat :=
  hiddenStatesSlices x info 0

/-- The names of the latent variables of an input dataset: those whose last
dimension equals the model's state count (structural.py line 297). -/
def latentNames (m : StructuralTimeSeries)
    (idata : List (String × List Rat)) : List String :=
  (idata.filter (fun p => p.2.length == m.k_states)).map Prod.fst

/-- The variables `extract_components_from_idata` drops with a logged
warning: the set difference between all variable names and the latent names
(structural.py line 301). -/
def droppedVars (m : StructuralTimeSeries)
    (idata : List (String × List Rat)) : List String :=
  ((idata.map Prod.fst).filter
    (fun n => !(latentNames m idata).contains n)).dedup

/-- `StructuralTimeSeries.extract_components_from_idata` (structural.py
lines 245-318) over a dataset modelled as named state vectors: a variable is
latent when its last dimension equals the model's state count; non-latent
variables are dropped (with a logged warning, see `droppedVars`), and when
every variable is dropped the call raises.  Latent variables are returned
decomposed by `hiddenStatesFromData`. -/
def extract_components_from_idata (m : StructuralTimeSeries)
    (idata : List (String × List Rat)) :
    Except String (List (String × List Rat)) :=
  if (droppedVars m idata).length = (idata.map Prod.fst).length then
    .error "Provided idata had no variables with all hidden states; cannot extract components."
  else
    .ok ((idata.filter (fun p => p.2.length == m.k_states)).map
      (fun p => (p.1, hiddenStatesFromData m.component_info p.2)))

/-- `order_to_mask` (structural.py lines 37-41) for an integer order: a mask
of `order` ones.  (The list form of the argument is not exercised by the
verified claims.) -/
def order_to_mask (order : Nat) : List Bool := List.replicate order true

/-- `LevelTrendComponent` (structural.py lines 807-887) with integer `order`
and integer (or defaulted) `innovations_order`.  `np.flatnonzero` of an empty
mask raises, so `order = 0` is an error; for an all-ones mask the excess-zero
check never fires and `k_states = order`.  An integer innovations order `n`
yields the mask `i < n` over the `k_states` positions. -/
def levelTrendComponent (σ : Store) (order : Nat)
    (innovationsOrder : Option Nat) (name : String) :
    Except String (Component × Store) := do
  let innovInt := innovationsOrder.getD order
  if order = 0 then
    throw "IndexError: index -1 is out of bounds for axis 0 with size 0"
  let order_mask := order_to_mask order
  let k_states := order
  let innovations_order := (List.range k_states).map (fun i => decide (i < innovInt))
  let k_posdef := innovations_order.count true
  let name_slice := POSITION_DERIVATIVE_NAMES.take k_states
  let state_names := ((name_slice.zip order_mask).filter (fun p => p.2)).map Prod.fst
  let shock_names :=
    if k_posdef > 0 then
      ((name_slice.zip innovations_order).filter (fun p => p.2)).map Prod.fst
    else []
  let param_names := ["initial_trend"] ++ (if k_posdef > 0 then ["sigma_trend"] else [])
  let param_dims := [("initial_trend", ["trend_state"])] ++
    (if k_posdef > 0 then [("sigma_trend", ["trend_shock"])] else [])
  let coords := [("trend_state", state_names)] ++
    (if k_posdef > 0 then [("trend_shock", shock_names)] else [])
  let param_info0 :=
    [("initial_trend", (⟨[some k_states], none, none⟩ : ParamInfo))] ++
    (if k_posdef > 0 then
      [("sigma_trend", (⟨[some k_posdef], some "Positive", none⟩ : ParamInfo))]
    else [])
  let param_info := param_info0.map
    (fun kv => (kv.1, { kv.2 with dims := param_dims.lookup kv.1 }))
  let trueIdx := (List.range k_states).filter
    (fun i => innovations_order.getD i false)
  let ssm : SSM := {
    k_endog := 1
    k_states := k_states
    k_posdef := k_posdef
    transition := ⟨(1, k_states, k_states),
      fun _ i j => .lit (if i ≤ j ∧ i < k_states ∧ j < k_states then 1 else 0)⟩
    selection := ⟨(1, k_states, k_posdef),
      fun _ i j => .lit (if trueIdx.get? j = some i then 1 else 0)⟩
    state_cov := ⟨(1, k_posdef, k_posdef),
      fun _ i j =>
        if i = j ∧ i < k_posdef then .sqParam "sigma_trend" i else .lit 0⟩ }
  let cs := allocComponent σ
    { name := name
      k_endog := 1
      k_states := k_states
      k_posdef := k_posdef
      measurement_error := false
      state_names := state_names
      data_names := []
      shock_names := shock_names
      param_names := param_names
      exog_names := []
      coords := coords
      param_dims := param_dims
      param_info := param_info
      data_info := []
      name_to_variable := []
      name_to_data := []
      component_info := [(name,
        ⟨k_states, 1, k_posdef, false,
         some ((1 : Rat) :: List.replicate (k_states - 1) 0)⟩)]
      ssm := ssm }
  let rv ← make_and_register_variable cs.2 cs.1 "initial_trend" [some k_states]
  if k_posdef > 0 then
    let rv2 ← make_and_register_variable rv.2 cs.1 "sigma_trend" [some k_posdef]
    return (cs.1, rv2.2)
  else
    return (cs.1, rv.2)

/-- `MeasurementError` (structural.py lines 928-953): no states, no shocks,
a single `sigma_{name}` parameter and the observation-noise equation. -/
def measurementErrorComponent (σ : Store) (name : String) :
    Except String (Component × Store) := do
  let sname := "sigma_" ++ name
  let cs := allocComponent σ
    { name := name
      k_endog := 1
      k_states := 0
      k_posdef := 0
      measurement_error := true
      state_names := []
      data_names := []
      shock_names := []
      param_names := [sname]
      exog_names := []
      coords := []
      param_dims := []
      param_info := [(sname, ⟨[], some "Positive", none⟩)]
      data_info := []
      name_to_variable := []
      name_to_data := []
      component_info := [(name, ⟨0, 1, 0, false, none⟩)]
      ssm := SSM.defaultRep 1 0 0 }
  let rv ← make_and_register_variable cs.2 cs.1 sname []
  return (cs.1, rv.2)

/-- The entries of the `TimeSeasonality` transition matrix built in
`make_symbolic_graph` (structural.py lines 1240-1252): with
`remove_first_state` the first row is all `-1` over a sub-diagonal of ones
(`np.eye(k, k=-1)` with `T[0, :] = -1`); otherwise a circulant shift
(`np.eye(k, k=1)` with `T[-1, 0] = 1`).  Indices outside `k` are never
read. -/
def seasonalTransitionEntry (k : Nat) (removeFirst : Bool) (i j : Nat) : Rat :=
  if removeFirst then
    if i = 0 then -1 else if j + 1 = i then 1 else 0
  else
    if j = i + 1 then 1 else if i = k - 1 ∧ j = 0 then 1 else 0

/-- `TimeSeasonality` (structural.py lines 1179-1264): `k_states =
season_length - int(remove_first_state)`, the canonical sum-to-zero (or
circulant) transition, and one coefficient vector parameter plus an optional
innovation variance. -/
def timeSeasonality (σ : Store) (season_length : Nat) (innovations : Bool)
    (nameOpt : Option String) (stateNamesOpt : Option (List String))
    (remove_first_state : Bool) : Except String (Component × Store) := do
  let name := nameOpt.getD ("Seasonal[s=" ++ toString season_length ++ "]")
  let state_names0 ←
    match stateNamesOpt with
    | none => pure ((List.range season_length).map
        (fun i => name ++ "_" ++ toString i))
    | some sn =>
      if sn.length ≠ season_length then
        throw ("state_names must be a list of length season_length, got "
          ++ toString sn.length)
      else pure sn
  let state_names ←
    if remove_first_state then
      match state_names0 with
      | [] => throw "IndexError: pop from empty list"
      | _ :: rest => pure rest
    else pure state_names0
  let k_states := season_length - (if remove_first_state then 1 else 0)
  let coefs := name ++ "_coefs"
  let sigmaName := "sigma_" ++ name
  let k_posdef := if innovations then 1 else 0
  let param_names := [coefs] ++ (if innovations then [sigmaName] else [])
  let param_info :=
    [(coefs, (⟨[some k_states], none, some [name ++ "_state"]⟩ : ParamInfo))]
    ++ (if innovations then
      [(sigmaName, (⟨[], some "Positive", none⟩ : ParamInfo))] else [])
  let param_dims := [(coefs, [name ++ "_state"])]
  let coords := [(name ++ "_state", state_names)]
  let shock_names := if innovations then [name] else []
  let ssm : SSM := {
    k_endog := 1
    k_states := k_states
    k_posdef := k_posdef
    transition := ⟨(1, k_states, k_states),
      fun _ i j =>
        .lit (seasonalTransitionEntry k_states remove_first_state i j)⟩
    selection := ⟨(1, k_states, k_posdef),
      fun _ i j =>
        if innovations then .lit (if i = 0 ∧ j = 0 then 1 else 0)
        else .lit 0⟩
    state_cov := ⟨(1, k_posdef, k_posdef),
      fun _ i j =>
        if innovations then
          (if i = 0 ∧ j = 0 then .sqParam sigmaName 0 else .lit 0)
        else .lit 0⟩ }
  let cs := allocComponent σ
    { name := name
      k_endog := 1
      k_states := k_states
      k_posdef := k_posdef
      measurement_error := false
      state_names := state_names
      data_names := []
      shock_names := shock_names
      param_names := param_names
      exog_names := []
      coords := coords
      param_dims := param_dims
      param_info := param_info
      data_info := []
      name_to_variable := []
      name_to_data := []
      component_info := [(name,
        ⟨k_states, 1, k_posdef, true,
         some ((1 : Rat) :: List.replicate (k_states - 1) 0)⟩)]
      ssm := ssm }
  let rv ← make_and_register_variable cs.2 cs.1 coefs [some k_states]
  if innovations then
    let rv2 ← make_and_register_variable rv.2 cs.1 sigmaName []
    return (cs.1, rv2.2)
  else
    return (cs.1, rv.2)

/-- One entry of a 2 x 2 frequency-domain transition block
`[[cos l, sin l], [-sin l, cos l]]` with `l = 2*pi*rho`
(`_frequency_transition_block`, structural.py lines 44-47). -/
def freqBlockEntry (rho : Rat) (r c : Nat) : MatEntry :=
  if r = 0 then (if c = 0 then .cosTwoPi rho else .sinTwoPi rho)
  else (if c = 0 then .negSinTwoPi rho else .cosTwoPi rho)

/-- A `FrequencySeasonality` component together with the instance attributes
the claims inspect (structural.py lines 1318-1346). -/
structure FreqSeasonality where
  comp : Component
  n : Nat
  season_length : Rat
  innovations : Bool
  last_state_not_identified : Bool
  n_coefs : Nat

/-- `FrequencySeasonality` (structural.py lines 1318-1391): `n` defaults to
`int(season_length // 2)`, `k_states = 2 n`, and the last state is
unparameterized exactly when `season_length / n == 2.0` (the source tests
the ratio, not `n == s // 2`, to catch non-integer season lengths);
`n_coefs = k_states - int(last_state_not_identified)`.  Python raises a
`ZeroDivisionError` when `n` is zero. -/
def frequencySeasonality (σ : Store) (season_length : Rat) (nOpt : Option Nat)
    (nameOpt : Option String) (innovations : Bool) :
    Except String (FreqSeasonality × Store) := do
  let n := nOpt.getD (Int.floor (season_length / 2)).toNat
  let name := nameOpt.getD ("Frequency[s=" ++ toString season_length ++
    ", n=" ++ toString n ++ "]")
  let k_states := n * 2
  if n = 0 then throw "ZeroDivisionError: float division by zero"
  let lastNotIdentified := decide (season_length / (n : Rat) = 2)
  let n_coefs := k_states - (if lastNotIdentified then 1 else 0)
  let sigmaName := "sigma_" ++ name
  let k_posdef := if innovations then k_states else 0
  let state_names := (List.range n).flatMap
    (fun i => [name ++ "_Cos_" ++ toString i, name ++ "_Sin_" ++ toString i])
  let param_names := [name] ++ (if innovations then [sigmaName] else [])
  let param_dims := [(name, [name ++ "_state"])]
  let param_info :=
    [(name, (⟨[some n_coefs], none, some [name ++ "_state"]⟩ : ParamInfo))]
    ++ (if innovations then
      [(sigmaName, (⟨[], some "Positive", none⟩ : ParamInfo))] else [])
  let coords := [(name ++ "_state", state_names.take n_coefs)]
  let shock_names := if innovations then state_names else []
  let ssm : SSM := {
    k_endog := 1
    k_states := k_states
    k_posdef := k_posdef
    transition := ⟨(1, k_states, k_states),
      fun _ i j =>
        if i / 2 = j / 2 ∧ i < k_states ∧ j < k_states then
          freqBlockEntry (((i / 2 + 1 : Nat) : Rat) / season_length)
            (i % 2) (j % 2)
        else .lit 0⟩
    selection := ⟨(1, k_states, k_posdef),
      fun _ i j =>
        if innovations then .lit (if i = j ∧ i < k_states then 1 else 0)
        else .lit 0⟩
    state_cov := ⟨(1, k_posdef, k_posdef),
      fun _ i j =>
        if innovations then
          (if i = j ∧ i < k_posdef then .sqParam sigmaName 0 else .lit 0)
        else .lit 0⟩ }
  let cs := allocComponent σ
    { name := name
      k_endog := 1
      k_states := k_states
      k_posdef := k_posdef
      measurement_error := false
      state_names := state_names
      data_names := []
      shock_names := shock_names
      param_names := param_names
      exog_names := []
      coords := coords
      param_dims := param_dims
      param_info := param_info
      data_info := []
      name_to_variable := []
      name_to_data := []
      component_info := [(name,
        ⟨k_states, 1, k_posdef, true,
         some ((List.range k_states).map
           (fun i => if i % 2 = 0 then (1 : Rat) else 0))⟩)]
      ssm := ssm }
  let rv ← make_and_register_variable cs.2 cs.1 name [some n_coefs]
  if innovations then
    let rv2 ← make_and_register_variable rv.2 cs.1 sigmaName []
    return (⟨cs.1, n, season_length, innovations, lastNotIdentified, n_coefs⟩,
      rv2.2)
  else
    return (⟨cs.1, n, season_length, innovations, lastNotIdentified, n_coefs⟩,
      rv.2)


/-- Whether an `Except` computation raised. -/
def exceptIsError {ε α : Type} : Except ε α → Bool
  | .error _ => true
  | .ok _ => false

def junkComponent : Component :=
  { name := ""
    k_endog := 0
    k_states := 0
    k_posdef := 0
    measurement_error := false
    state_names := 0
    data_names := 0
    shock_names := 0
    param_names := 0
    exog_names := 0
    coords := 0
    param_dims := 0
    param_info := 0
    data_info := 0
    name_to_variable := 0
    name_to_data := 0
    component_info := 0
    ssm := SSM.defaultRep 0 0 0 }

instance : Inhabited Component := ⟨junkComponent⟩

instance : Inhabited Placeholder := ⟨⟨"", []⟩⟩

instance : Inhabited FreqSeasonality :=
  ⟨⟨junkComponent, 0, 0, false, false, 0⟩⟩

instance {e a : Type} [DecidableEq e] [DecidableEq a] :
    DecidableEq (Except e a) := fun x y =>
  match x, y with
  | .error u, .error v =>
    if h : u = v then .isTrue (by rw [h])
    else .isFalse (fun he => h (by injection he))
  | .error _, .ok _ => .isFalse (fun he => by injection he)
  | .ok _, .error _ => .isFalse (fun he => by injection he)
  | .ok u, .ok v =>
    if h : u = v then .isTrue (by rw [h])
    else .isFalse (fun he => h (by injection he))

/-- Extract the payload of a successful `Except` computation. -/
def exceptOkD {ε α : Type} [Inhabited α] : Except ε α → α
  | .ok a => a
  | .error _ => default

theorem length_setObj (σ : Store) (r : Nat) (o : PyObj) :
    (setObj σ r o).length = σ.length := List.length_set σ r o

theorem getObj_setObj_self (σ : Store) (r : Nat) (o : PyObj)
    (h : r < σ.length) : getObj (setObj σ r o) r = some o := by
  unfold getObj setObj
  rw [List.get?_eq_getElem?, List.getElem?_set_self h]

theorem getObj_setObj_ne (σ : Store) (r s : Nat) (o : PyObj) (h : r ≠ s) :
    getObj (setObj σ r o) s = getObj σ s := by
  unfold getObj setObj
  rw [List.get?_eq_getElem?, List.getElem?_set_ne h, List.get?_eq_getElem?]

theorem getObj_append_lt (σ L : Store) (r : Nat) (h : r < σ.length) :
    getObj (σ ++ L) r = getObj σ r := by
  unfold getObj
  rw [List.get?_eq_getElem?, List.getElem?_append, if_pos h,
    List.get?_eq_getElem?]

theorem getObj_append_add (σ L : Store) (i : Nat) :
    getObj (σ ++ L) (σ.length + i) = L.get? i := by
  unfold getObj
  rw [List.get?_eq_getElem?, List.getElem?_append_right (Nat.le_add_right _ _),
    Nat.add_sub_cancel_left, List.get?_eq_getElem?]

theorem getStrList_congr {σ σ' : Store} {r r' : Nat}
    (h : getObj σ r = getObj σ' r') : getStrList σ r = getStrList σ' r' := by
  unfold getStrList
  unfold getObj at h
  rw [h]

theorem getStrListDict_congr {σ σ' : Store} {r r' : Nat}
    (h : getObj σ r = getObj σ' r') :
    getStrListDict σ r = getStrListDict σ' r' := by
  unfold getStrListDict
  unfold getObj at h
  rw [h]

theorem getParamInfoDict_congr {σ σ' : Store} {r r' : Nat}
    (h : getObj σ r = getObj σ' r') :
    getParamInfoDict σ r = getParamInfoDict σ' r' := by
  unfold getParamInfoDict
  unfold getObj at h
  rw [h]

theorem getDataInfoDict_congr {σ σ' : Store} {r r' : Nat}
    (h : getObj σ r = getObj σ' r') :
    getDataInfoDict σ r = getDataInfoDict σ' r' := by
  unfold getDataInfoDict
  unfold getObj at h
  rw [h]

theorem getVarDict_congr {σ σ' : Store} {r r' : Nat}
    (h : getObj σ r = getObj σ' r') : getVarDict σ r = getVarDict σ' r' := by
  unfold getVarDict
  unfold getObj at h
  rw [h]

theorem getCompInfoDict_congr {σ σ' : Store} {r r' : Nat}
    (h : getObj σ r = getObj σ' r') :
    getCompInfoDict σ r = getCompInfoDict σ' r' := by
  unfold getCompInfoDict
  unfold getObj at h
  rw [h]

/-- The twelve objects `allocComponent` appends, in allocation order. -/
def allocObjs (d : ComponentData) : List PyObj :=
  [.strList d.state_names, .strList d.data_names, .strList d.shock_names,
   .strList d.param_names, .strList d.exog_names, .strListDict d.coords,
   .strListDict d.param_dims, .paramInfoDict d.param_info,
   .dataInfoDict d.data_info, .varDict d.name_to_variable,
   .varDict d.name_to_data, .compInfoDict d.component_info]

theorem allocComponent_snd (σ : Store) (d : ComponentData) :
    (allocComponent σ d).2 = σ ++ allocObjs d := rfl

theorem allocComponent_getObj (σ : Store) (d : ComponentData) (i : Nat) :
    getObj (allocComponent σ d).2 (σ.length + i) = (allocObjs d).get? i := by
  rw [allocComponent_snd]
  exact getObj_append_add σ _ i

theorem allocComponent_state_names (σ : Store) (d : ComponentData) :
    getStrList (allocComponent σ d).2 (allocComponent σ d).1.state_names =
      d.state_names := by
  have h : getObj (allocComponent σ d).2 (σ.length + 0) =
      some (.strList d.state_names) := by
    rw [allocComponent_getObj]; rfl
  have h2 : (allocComponent σ d).1.state_names = σ.length + 0 := rfl
  rw [h2]
  unfold getStrList
  unfold getObj at h
  rw [h]

theorem allocComponent_data_names (σ : Store) (d : ComponentData) :
    getStrList (allocComponent σ d).2 (allocComponent σ d).1.data_names =
      d.data_names := by
  have h : getObj (allocComponent σ d).2 (σ.length + 1) =
      some (.strList d.data_names) := by
    rw [allocComponent_getObj]; rfl
  have h2 : (allocComponent σ d).1.data_names = σ.length + 1 := rfl
  rw [h2]
  unfold getStrList
  unfold getObj at h
  rw [h]

theorem allocComponent_shock_names (σ : Store) (d : ComponentData) :
    getStrList (allocComponent σ d).2 (allocComponent σ d).1.shock_names =
      d.shock_names := by
  have h : getObj (allocComponent σ d).2 (σ.length + 2) =
      some (.strList d.shock_names) := by
    rw [allocComponent_getObj]; rfl
  have h2 : (allocComponent σ d).1.shock_names = σ.length + 2 := rfl
  rw [h2]
  unfold getStrList
  unfold getObj at h
  rw [h]

theorem allocComponent_param_names (σ : Store) (d : ComponentData) :
    getStrList (allocComponent σ d).2 (allocComponent σ d).1.param_names =
      d.param_names := by
  have h : getObj (allocComponent σ d).2 (σ.length + 3) =
      some (.strList d.param_names) := by
    rw [allocComponent_getObj]; rfl
  have h2 : (allocComponent σ d).1.param_names = σ.length + 3 := rfl
  rw [h2]
  unfold getStrList
  unfold getObj at h
  rw [h]

theorem allocComponent_exog_names (σ : Store) (d : ComponentData) :
    getStrList (allocComponent σ d).2 (allocComponent σ d).1.exog_names =
      d.exog_names := by
  have h : getObj (allocComponent σ d).2 (σ.length + 4) =
      some (.strList d.exog_names) := by
    rw [allocComponent_getObj]; rfl
  have h2 : (allocComponent σ d).1.exog_names = σ.length + 4 := rfl
  rw [h2]
  unfold getStrList
  unfold getObj at h
  rw [h]

theorem allocComponent_coords (σ : Store) (d : ComponentData) :
    getStrListDict (allocComponent σ d).2 (allocComponent σ d).1.coords =
      d.coords := by
  have h : getObj (allocComponent σ d).2 (σ.length + 5) =
      some (.strListDict d.coords) := by
    rw [allocComponent_getObj]; rfl
  have h2 : (allocComponent σ d).1.coords = σ.length + 5 := rfl
  rw [h2]
  unfold getStrListDict
  unfold getObj at h
  rw [h]

theorem allocComponent_param_dims (σ : Store) (d : ComponentData) :
    getStrListDict (allocComponent σ d).2 (allocComponent σ d).1.param_dims =
      d.param_dims := by
  have h : getObj (allocComponent σ d).2 (σ.length + 6) =
      some (.strListDict d.param_dims) := by
    rw [allocComponent_getObj]; rfl
  have h2 : (allocComponent σ d).1.param_dims = σ.length + 6 := rfl
  rw [h2]
  unfold getStrListDict
  unfold getObj at h
  rw [h]

theorem allocComponent_param_info (σ : Store) (d : ComponentData) :
    getParamInfoDict (allocComponent σ d).2
      (allocComponent σ d).1.param_info = d.param_info := by
  have h : getObj (allocComponent σ d).2 (σ.length + 7) =
      some (.paramInfoDict d.param_info) := by
    rw [allocComponent_getObj]; rfl
  have h2 : (allocComponent σ d).1.param_info = σ.length + 7 := rfl
  rw [h2]
  unfold getParamInfoDict
  unfold getObj at h
  rw [h]

theorem allocComponent_data_info (σ : Store) (d : ComponentData) :
    getDataInfoDict (allocComponent σ d).2
      (allocComponent σ d).1.data_info = d.data_info := by
  have h : getObj (allocComponent σ d).2 (σ.length + 8) =
      some (.dataInfoDict d.data_info) := by
    rw [allocComponent_getObj]; rfl
  have h2 : (allocComponent σ d).1.data_info = σ.length + 8 := rfl
  rw [h2]
  unfold getDataInfoDict
  unfold getObj at h
  rw [h]

theorem allocComponent_name_to_variable (σ : Store) (d : ComponentData) :
    getVarDict (allocComponent σ d).2
      (allocComponent σ d).1.name_to_variable = d.name_to_variable := by
  have h : getObj (allocComponent σ d).2 (σ.length + 9) =
      some (.varDict d.name_to_variable) := by
    rw [allocComponent_getObj]; rfl
  have h2 : (allocComponent σ d).1.name_to_variable = σ.length + 9 := rfl
  rw [h2]
  unfold getVarDict
  unfold getObj at h
  rw [h]

theorem allocComponent_name_to_data (σ : Store) (d : ComponentData) :
    getVarDict (allocComponent σ d).2
      (allocComponent σ d).1.name_to_data = d.name_to_data := by
  have h : getObj (allocComponent σ d).2 (σ.length + 10) =
      some (.varDict d.name_to_data) := by
    rw [allocComponent_getObj]; rfl
  have h2 : (allocComponent σ d).1.name_to_data = σ.length + 10 := rfl
  rw [h2]
  unfold getVarDict
  unfold getObj at h
  rw [h]

theorem allocComponent_component_info (σ : Store) (d : ComponentData) :
    getCompInfoDict (allocComponent σ d).2
      (allocComponent σ d).1.component_info = d.component_info := by
  have h : getObj (allocComponent σ d).2 (σ.length + 11) =
      some (.compInfoDict d.component_info) := by
    rw [allocComponent_getObj]; rfl
  have h2 : (allocComponent σ d).1.component_info = σ.length + 11 := rfl
  rw [h2]
  unfold getCompInfoDict
  unfold getObj at h
  rw [h]

theorem allocComponent_refs_fresh (σ : Store) (d : ComponentData) :
    ∀ r ∈ componentRefs (allocComponent σ d).1, σ.length ≤ r := by
  intro r hr
  simp only [componentRefs, allocComponent, List.mem_cons,
    List.not_mem_nil, or_false] at hr
  rcases hr with h | h | h | h | h | h | h | h | h | h | h | h <;> omega

theorem allocComponent_WF (σ : Store) (d : ComponentData) :
    (allocComponent σ d).1.WF (allocComponent σ d).2 := by
  constructor
  · intro r hr
    rw [allocComponent_snd, List.length_append]
    have h12 : (allocObjs d).length = 12 := rfl
    simp only [componentRefs, allocComponent, List.mem_cons,
      List.not_mem_nil, or_false] at hr
    rcases hr with h | h | h | h | h | h | h | h | h | h | h | h <;> omega
  · simp only [componentRefs, allocComponent, List.nodup_cons,
      List.mem_cons, List.not_mem_nil, List.nodup_nil, and_true, or_false,
      not_or, not_false_eq_true]
    repeat' apply And.intro
    all_goals omega

theorem Component.add_ok {σ : Store} {a b : Component} {c : Component}
    {σ' : Store} (h : Component.add σ a b = .ok (c, σ')) :
    ∃ ci, a.k_endog = b.k_endog ∧
      combineComponentInfo (getCompInfoDict σ a.component_info)
        (getCompInfoDict σ b.component_info) = .ok ci ∧
      c = (allocComponent σ (addData σ a b ci)).1 ∧
      σ' = (allocComponent σ (addData σ a b ci)).2 := by
  unfold Component.add at h
  split at h
  · exact absurd h (by simp)
  · rename_i hk
    rw [not_not] at hk
    split at h
    · exact absurd h (by simp)
    · rename_i ci hci
      refine ⟨ci, hk, hci, ?_, ?_⟩
      · injection h with h1
        exact (congrArg Prod.fst h1).symm
      · injection h with h1
        exact (congrArg Prod.snd h1).symm

/-- Claim C6: composing two components fails whenever their endogenous
counts differ; a successful composition has summed state and shock counts,
its representation carries the shared endogenous count, and (since every
component the library can construct has `k_endog = 1`) its `k_endog`
attribute equals the shared value. -/
theorem claim_C6 (σ : Store) (a b : Component) :
    (a.k_endog ≠ b.k_endog → exceptIsError (Component.add σ a b) = true) ∧
    (∀ c σ', Component.add σ a b = .ok (c, σ') →
      a.k_endog = b.k_endog ∧
      c.k_states = a.k_states + b.k_states ∧
      c.k_posdef = a.k_posdef + b.k_posdef ∧
      c.ssm.k_states = a.k_states + b.k_states ∧
      c.ssm.k_posdef = a.k_posdef + b.k_posdef ∧
      c.ssm.k_endog = a.k_endog ∧
      (a.k_endog = 1 → c.k_endog = a.k_endog)) := by
  constructor
  · intro h
    unfold Component.add
    rw [if_pos h]
    rfl
  · intro c σ' h
    obtain ⟨ci, hk, hci, hc, hσ⟩ := Component.add_ok h
    subst hc
    exact ⟨hk, rfl, rfl, rfl, rfl, rfl, fun h1 => by rw [h1]; rfl⟩

def wcA : Component × Store := allocComponent []
  { name := "A"
    k_endog := 1
    k_states := 2
    k_posdef := 1
    measurement_error := false
    state_names := ["x1", "x2"]
    data_names := []
    shock_names := ["e1"]
    param_names := ["pa"]
    exog_names := []
    coords := [("dimA", ["x1", "x2"])]
    param_dims := [("pa", ["dimA"])]
    param_info := [("pa", ⟨[some 2], none, none⟩)]
    data_info := []
    name_to_variable := [("pa", ⟨"pa", [some 2]⟩)]
    name_to_data := []
    component_info := [("A", ⟨2, 1, 1, false, none⟩)]
    ssm := SSM.defaultRep 1 2 1 }

def wcB : Component × Store := allocComponent wcA.2
  { name := "B"
    k_endog := 1
    k_states := 1
    k_posdef := 0
    measurement_error := false
    state_names := ["y"]
    data_names := []
    shock_names := []
    param_names := ["pb"]
    exog_names := []
    coords := []
    param_dims := []
    param_info := [("pb", ⟨[some 1], none, none⟩)]
    data_info := []
    name_to_variable := [("pb", ⟨"pb", [some 1]⟩)]
    name_to_data := []
    component_info := [("B", ⟨1, 1, 0, true, some [1]⟩)]
    ssm := SSM.defaultRep 1 1 0 }

/-- A component with a deviant endogenous count, for the mismatch branch. -/
def wcB2 : Component := { wcB.1 with k_endog := 2 }

def wAddPair : Component × Store :=
  exceptOkD (Component.add wcB.2 wcA.1 wcB.1)

theorem claim_C6_witness :
    (exceptIsError (Component.add wcB.2 wcA.1 wcB2) = true) ∧
    (wcA.1.k_endog = wcB.1.k_endog ∧
      wAddPair.1.k_states = wcA.1.k_states + wcB.1.k_states ∧
      wAddPair.1.k_posdef = wcA.1.k_posdef + wcB.1.k_posdef ∧
      wAddPair.1.ssm.k_states = wcA.1.k_states + wcB.1.k_states ∧
      wAddPair.1.ssm.k_posdef = wcA.1.k_posdef + wcB.1.k_posdef ∧
      wAddPair.1.ssm.k_endog = wcA.1.k_endog ∧
      (wcA.1.k_endog = 1 → wAddPair.1.k_endog = wcA.1.k_endog)) :=
  ⟨(claim_C6 wcB.2 wcA.1 wcB2).1 (by decide),
   (claim_C6 wcB.2 wcA.1 wcB.1).2 wAddPair.1 wAddPair.2 rfl⟩

/-- Claim C1: for components composed successfully, building the sum yields
a model whose state count is the sum of the operands' state counts and whose
parameter names are the operands' parameter names followed by the implicit
`P0`. -/
theorem claim_C1 (σ : Store) (a b : Component) (c : Component) (σ1 : Store)
    (hadd : Component.add σ a b = .ok (c, σ1)) :
    (Component.build σ1 c none).1.k_states = a.k_states + b.k_states ∧
    (Component.build σ1 c none).1.param_names =
      (getStrList σ a.param_names ++ getStrList σ b.param_names) ++ ["P0"] ∧
    (∀ p ∈ getStrList σ a.param_names,
      p ∈ (Component.build σ1 c none).1.param_names) ∧
    (∀ p ∈ getStrList σ b.param_names,
      p ∈ (Component.build σ1 c none).1.param_names) ∧
    "P0" ∈ (Component.build σ1 c none).1.param_names := by
  obtain ⟨ci, hk, hci, hc, hσ⟩ := Component.add_ok hadd
  subst hc
  subst hσ
  have hpn : getStrList (allocComponent σ (addData σ a b ci)).2
      (allocComponent σ (addData σ a b ci)).1.param_names =
      getStrList σ a.param_names ++ getStrList σ b.param_names :=
    allocComponent_param_names σ _
  have h2 : (Component.build (allocComponent σ (addData σ a b ci)).2
      (allocComponent σ (addData σ a b ci)).1 none).1.param_names =
      getStrList (allocComponent σ (addData σ a b ci)).2
        (allocComponent σ (addData σ a b ci)).1.param_names ++ ["P0"] := rfl
  rw [hpn] at h2
  refine ⟨rfl, h2, ?_, ?_, ?_⟩
  · intro p hp
    rw [h2]
    simp only [List.mem_append]
    exact Or.inl (Or.inl hp)
  · intro p hp
    rw [h2]
    simp only [List.mem_append]
    exact Or.inl (Or.inr hp)
  · rw [h2]
    simp

def wBuildPair : StructuralTimeSeries × Store :=
  Component.build wAddPair.2 wAddPair.1 none

theorem claim_C1_witness :
    wBuildPair.1.k_states = wcA.1.k_states + wcB.1.k_states ∧
    wBuildPair.1.param_names =
      (getStrList wcB.2 wcA.1.param_names ++
        getStrList wcB.2 wcB.1.param_names) ++ ["P0"] ∧
    (∀ p ∈ getStrList wcB.2 wcA.1.param_names,
      p ∈ wBuildPair.1.param_names) ∧
    (∀ p ∈ getStrList wcB.2 wcB.1.param_names,
      p ∈ wBuildPair.1.param_names) ∧
    "P0" ∈ wBuildPair.1.param_names :=
  claim_C1 wcB.2 wcA.1 wcB.1 wAddPair.1 wAddPair.2 rfl

/-- Claim C9: composition leaves both operands untouched (every heap object
they reference is unchanged) and the composed component's lists, dicts,
registries and info table are freshly allocated objects, aliasing none of
the operands'. -/
theorem claim_C9 (σ : Store) (a b : Component) (c : Component) (σ' : Store)
    (hwa : a.WF σ) (hwb : b.WF σ)
    (hadd : Component.add σ a b = .ok (c, σ')) :
    (∀ r ∈ componentRefs a, getObj σ' r = getObj σ r) ∧
    (∀ r ∈ componentRefs b, getObj σ' r = getObj σ r) ∧
    (∀ r ∈ componentRefs c, r ∉ componentRefs a ∧ r ∉ componentRefs b) := by
  obtain ⟨ci, hk, hci, hc, hσ⟩ := Component.add_ok hadd
  subst hc
  subst hσ
  refine ⟨?_, ?_, ?_⟩
  · intro r hr
    rw [allocComponent_snd]
    exact getObj_append_lt σ _ r (hwa.1 r hr)
  · intro r hr
    rw [allocComponent_snd]
    exact getObj_append_lt σ _ r (hwb.1 r hr)
  · intro r hr
    have hfresh := allocComponent_refs_fresh σ (addData σ a b ci) r hr
    exact ⟨fun hmem => absurd (hwa.1 r hmem) (Nat.not_lt.mpr hfresh),
      fun hmem => absurd (hwb.1 r hmem) (Nat.not_lt.mpr hfresh)⟩

set_option maxHeartbeats 2000000 in
theorem claim_C9_witness :
    (∀ r ∈ componentRefs wcA.1, getObj wAddPair.2 r = getObj wcB.2 r) ∧
    (∀ r ∈ componentRefs wcB.1, getObj wAddPair.2 r = getObj wcB.2 r) ∧
    (∀ r ∈ componentRefs wAddPair.1,
      r ∉ componentRefs wcA.1 ∧ r ∉ componentRefs wcB.1) :=
  claim_C9 wcB.2 wcA.1 wcB.1 wAddPair.1 wAddPair.2 (by decide) (by decide)
    rfl

/-- The pairwise distinctness facts about a well-formed component's
references that the build/registration proofs use. -/
theorem WF_distinct {σ : Store} {c : Component} (hwf : c.WF σ) :
    c.param_names ≠ c.param_dims ∧ c.param_names ≠ c.param_info ∧
    c.param_names ≠ c.coords ∧ c.param_dims ≠ c.param_info ∧
    c.param_dims ≠ c.coords ∧ c.param_info ≠ c.coords ∧
    c.param_names ≠ c.name_to_variable ∧
    c.name_to_variable ≠ c.param_dims ∧
    c.name_to_variable ≠ c.param_info ∧ c.name_to_variable ≠ c.coords := by
  have h := hwf.2
  simp only [componentRefs, List.nodup_cons, List.mem_cons,
    List.not_mem_nil, or_false, not_or, List.nodup_nil, and_true,
    not_false_eq_true] at h
  obtain ⟨h1, h2, h3, h4, h5, h6, h7, h8, h9, h10, h11⟩ := h
  exact ⟨h4.2.2.1, h4.2.2.2.1, h4.2.1, h7.1,
    fun he => h6.1 he.symm, fun he => h6.2.1 he.symm,
    h4.2.2.2.2.2.1,
    fun he => h7.2.2.1 he.symm,
    fun he => h8.2.1 he.symm,
    fun he => h6.2.2.2.1 he.symm⟩

theorem wfBounds {σ : Store} {c : Component} (hwf : c.WF σ) :
    c.param_names < σ.length ∧ c.param_dims < σ.length ∧
    c.param_info < σ.length ∧ c.coords < σ.length ∧
    c.name_to_variable < σ.length := by
  refine ⟨hwf.1 _ ?_, hwf.1 _ ?_, hwf.1 _ ?_, hwf.1 _ ?_, hwf.1 _ ?_⟩ <;>
    simp [componentRefs]

theorem lookup_append_single_of_none {α : Type} (l : List (String × α))
    (k : String) (v : α) (h : l.lookup k = none) :
    (l ++ [(k, v)]).lookup k = some v := by
  induction l with
  | nil => simp
  | cons hd t ih =>
    obtain ⟨k2, v2⟩ := hd
    rw [List.cons_append, List.lookup_cons]
    rw [List.lookup_cons] at h
    cases hbeq : (k == k2) with
    | true => simp [hbeq] at h
    | false =>
      simp only [hbeq] at h ⊢
      exact ih h

theorem lookup_map_set {α : Type} (d : List (String × α)) (k : String)
    (v : α) (h : d.any (fun kv => kv.1 = k) = true) :
    (d.map (fun kv => if kv.1 = k then (k, v) else kv)).lookup k = some v := by
  induction d with
  | nil => simp at h
  | cons hd t ih =>
    obtain ⟨k2, v2⟩ := hd
    simp only [List.any_cons, Bool.or_eq_true, decide_eq_true_eq] at h
    by_cases hk : k2 = k
    · subst hk
      simp [List.lookup_cons]
    · have ht : (t.any fun kv => decide (kv.1 = k)) = true := by
        rcases h with h | h
        · exact absurd h hk
        · exact h
      have hbeq : (k == k2) = false :=
        beq_eq_false_iff_ne.mpr (fun he => hk he.symm)
      simp only [List.map_cons]
      rw [if_neg hk, List.lookup_cons]
      simp only [hbeq]
      exact ih ht

theorem lookup_eq_none_of_not_any {α : Type} (d : List (String × α))
    (k : String) (h : (d.any fun kv => kv.1 = k) = false) :
    d.lookup k = none := by
  induction d with
  | nil => simp
  | cons hd t ih =>
    obtain ⟨k2, v2⟩ := hd
    simp only [List.any_cons, Bool.or_eq_false_iff, decide_eq_false_iff_not]
      at h
    have hbeq : (k == k2) = false :=
      beq_eq_false_iff_ne.mpr (fun he => h.1 he.symm)
    rw [List.lookup_cons]
    simp only [hbeq]
    exact ih h.2

theorem assocSet_lookup_self {α : Type} (d : List (String × α)) (k : String)
    (v : α) : (assocSet d k v).lookup k = some v := by
  unfold assocSet
  split
  · rename_i h
    exact lookup_map_set d k v h
  · rename_i h
    exact lookup_append_single_of_none d k v
      (lookup_eq_none_of_not_any d k (Bool.not_eq_true _ ▸ eq_false_of_ne_true h))

theorem build_param_names_store (σ : Store) (c : Component)
    (hwf : c.WF σ) :
    getStrList (Component.build σ c none).2 c.param_names =
      getStrList σ c.param_names ++ ["P0"] := by
  obtain ⟨hne1, hne2, hne3, _, _, _, _, _, _, _⟩ := WF_distinct hwf
  have hb := (wfBounds hwf).1
  have key : getObj (Component.build σ c none).2 c.param_names =
      some (.strList (getStrList σ c.param_names ++ ["P0"])) := by
    show getObj (setObj (setObj (setObj (setObj σ c.param_names _)
      c.param_dims _) c.param_info _) c.coords _) c.param_names = _
    rw [getObj_setObj_ne _ _ _ _ (Ne.symm hne3)]
    rw [getObj_setObj_ne _ _ _ _ (Ne.symm hne2)]
    rw [getObj_setObj_ne _ _ _ _ (Ne.symm hne1)]
    exact getObj_setObj_self σ c.param_names _ hb
  unfold getStrList
  unfold getObj at key
  rw [key]
  rfl


theorem build_param_dims_store (σ : Store) (c : Component)
    (hwf : c.WF σ) :
    getStrListDict (Component.build σ c none).2 c.param_dims =
      assocSet (getStrListDict σ c.param_dims) "P0"
        [ALL_STATE_DIM, ALL_STATE_AUX_DIM] := by
  obtain ⟨hne1, _, _, hne4, hne5, _, _, _, _, _⟩ := WF_distinct hwf
  have hb := (wfBounds hwf).2.1
  have key : getObj (Component.build σ c none).2 c.param_dims =
      some (.strListDict (assocSet (getStrListDict σ c.param_dims) "P0"
        [ALL_STATE_DIM, ALL_STATE_AUX_DIM])) := by
    show getObj (setObj (setObj (setObj (setObj σ c.param_names _)
      c.param_dims _) c.param_info _) c.coords _) c.param_dims = _
    rw [getObj_setObj_ne _ _ _ _ (Ne.symm hne5)]
    rw [getObj_setObj_ne _ _ _ _ (Ne.symm hne4)]
    exact getObj_setObj_self _ c.param_dims _
      (by rw [length_setObj]; exact hb)
  unfold getStrListDict
  unfold getObj at key
  rw [key]
  rfl


theorem build_param_info_store (σ : Store) (c : Component)
    (hwf : c.WF σ) :
    getParamInfoDict (Component.build σ c none).2 c.param_info =
      assocSet (getParamInfoDict σ c.param_info) "P0"
        ⟨[some c.ssm.k_states, some c.ssm.k_states],
          some "Positive semi-definite",
          some [ALL_STATE_DIM, ALL_STATE_AUX_DIM]⟩ := by
  obtain ⟨_, hne2, _, hne4, _, hne6, _, _, _, _⟩ := WF_distinct hwf
  have hb := (wfBounds hwf).2.2.1
  have key : getObj (Component.build σ c none).2 c.param_info =
      some (.paramInfoDict (assocSet (getParamInfoDict σ c.param_info) "P0"
        ⟨[some c.ssm.k_states, some c.ssm.k_states],
          some "Positive semi-definite",
          some [ALL_STATE_DIM, ALL_STATE_AUX_DIM]⟩)) := by
    show getObj (setObj (setObj (setObj (setObj σ c.param_names _)
      c.param_dims _) c.param_info _) c.coords _) c.param_info = _
    rw [getObj_setObj_ne _ _ _ _ (Ne.symm hne6)]
    exact getObj_setObj_self _ c.param_info _
      (by rw [length_setObj, length_setObj]; exact hb)
  unfold getParamInfoDict
  unfold getObj at key
  rw [key]
  rfl


/-- Claim C10: `build` mutates the component itself.  After one build the
component's own `param_names` list has gained `P0` (and its `param_dims` /
`param_info` dicts the `P0` entries), the built model's `param_names` is the
original list plus `P0`, and building the same component a second time
yields a model whose `param_names` contains `P0` twice. -/
theorem claim_C10 (σ : Store) (c : Component) (hwf : c.WF σ) :
    getStrList (Component.build σ c none).2 c.param_names =
      getStrList σ c.param_names ++ ["P0"] ∧
    "P0" ∈ getStrList (Component.build σ c none).2 c.param_names ∧
    (getStrListDict (Component.build σ c none).2 c.param_dims).lookup "P0" =
      some [ALL_STATE_DIM, ALL_STATE_AUX_DIM] ∧
    (getParamInfoDict (Component.build σ c none).2 c.param_info).lookup "P0"
      = some ⟨[some c.ssm.k_states, some c.ssm.k_states],
        some "Positive semi-definite",
        some [ALL_STATE_DIM, ALL_STATE_AUX_DIM]⟩ ∧
    (Component.build σ c none).1.param_names =
      getStrList σ c.param_names ++ ["P0"] ∧
    (Component.build (Component.build σ c none).2 c none).1.param_names =
      getStrList σ c.param_names ++ ["P0"] ++ ["P0"] ∧
    ((Component.build (Component.build σ c none).2 c
        none).1.param_names).count "P0" =
      (getStrList σ c.param_names).count "P0" + 2 := by
  have h1 := build_param_names_store σ c hwf
  have h3 := build_param_dims_store σ c hwf
  have h4 := build_param_info_store σ c hwf
  have hm1 : (Component.build σ c none).1.param_names =
      getStrList σ c.param_names ++ ["P0"] := rfl
  have hm2 : (Component.build (Component.build σ c none).2 c
      none).1.param_names =
      getStrList (Component.build σ c none).2 c.param_names ++ ["P0"] := rfl
  refine ⟨h1, ?_, ?_, ?_, hm1, ?_, ?_⟩
  · rw [h1]
    simp
  · rw [h3]
    exact assocSet_lookup_self _ _ _
  · rw [h4]
    exact assocSet_lookup_self _ _ _
  · rw [hm2, h1]
  · rw [hm2, h1]
    simp [List.count_append]

theorem claim_C10_witness :
    getStrList (Component.build wcB.2 wcA.1 none).2 wcA.1.param_names =
      getStrList wcB.2 wcA.1.param_names ++ ["P0"] ∧
    "P0" ∈ getStrList (Component.build wcB.2 wcA.1 none).2
      wcA.1.param_names ∧
    (getStrListDict (Component.build wcB.2 wcA.1 none).2
      wcA.1.param_dims).lookup "P0" =
      some [ALL_STATE_DIM, ALL_STATE_AUX_DIM] ∧
    (getParamInfoDict (Component.build wcB.2 wcA.1 none).2
      wcA.1.param_info).lookup "P0"
      = some ⟨[some wcA.1.ssm.k_states, some wcA.1.ssm.k_states],
        some "Positive semi-definite",
        some [ALL_STATE_DIM, ALL_STATE_AUX_DIM]⟩ ∧
    (Component.build wcB.2 wcA.1 none).1.param_names =
      getStrList wcB.2 wcA.1.param_names ++ ["P0"] ∧
    (Component.build (Component.build wcB.2 wcA.1 none).2 wcA.1
      none).1.param_names =
      getStrList wcB.2 wcA.1.param_names ++ ["P0"] ++ ["P0"] ∧
    ((Component.build (Component.build wcB.2 wcA.1 none).2 wcA.1
        none).1.param_names).count "P0" =
      (getStrList wcB.2 wcA.1.param_names).count "P0" + 2 :=
  claim_C10 wcB.2 wcA.1 (by decide)

/-- Claim C5: registering a placeholder fails when the name is not a
declared parameter name and when the name is already registered; otherwise
it stores and returns a placeholder of the requested shape, leaves the
declared names unchanged, and a second registration of the same name always
fails. -/
theorem claim_C5 (σ : Store) (c : Component) (hwf : c.WF σ) (name : String)
    (shape shape2 : List (Option Nat)) :
    (name ∉ getStrList σ c.param_names →
      exceptIsError (make_and_register_variable σ c name shape) = true) ∧
    (((getVarDict σ c.name_to_variable).lookup name).isSome = true →
      exceptIsError (make_and_register_variable σ c name shape) = true) ∧
    (∀ ph σ', make_and_register_variable σ c name shape = .ok (ph, σ') →
      ph = ⟨name, shape⟩ ∧
      (getVarDict σ' c.name_to_variable).lookup name = some ⟨name, shape⟩ ∧
      getStrList σ' c.param_names = getStrList σ c.param_names ∧
      exceptIsError (make_and_register_variable σ' c name shape2) = true)
    := by
  obtain ⟨_, _, _, _, _, _, hpv, _, _, _⟩ := WF_distinct hwf
  have hbv := (wfBounds hwf).2.2.2.2
  refine ⟨?_, ?_, ?_⟩
  · intro h
    unfold make_and_register_variable
    rw [if_neg h]
    rfl
  · intro h
    by_cases hmem : name ∈ getStrList σ c.param_names
    · unfold make_and_register_variable
      rw [if_pos hmem, if_pos h]
      rfl
    · unfold make_and_register_variable
      rw [if_neg hmem]
      rfl
  · intro ph σ' h
    unfold make_and_register_variable at h
    by_cases hmem : name ∈ getStrList σ c.param_names
    · rw [if_pos hmem] at h
      by_cases hreg :
          ((getVarDict σ c.name_to_variable).lookup name).isSome = true
      · rw [if_pos hreg] at h
        exact absurd h (by simp)
      · rw [if_neg hreg] at h
        injection h with h1
        have hph : ph = ⟨name, shape⟩ := (congrArg Prod.fst h1).symm
        have hσ' : σ' = setObj σ c.name_to_variable
            (.varDict (getVarDict σ c.name_to_variable ++
              [(name, ⟨name, shape⟩)])) := (congrArg Prod.snd h1).symm
        have hnone : (getVarDict σ c.name_to_variable).lookup name = none :=
          Option.not_isSome_iff_eq_none.mp hreg
        have hvd : getVarDict σ' c.name_to_variable =
            getVarDict σ c.name_to_variable ++ [(name, ⟨name, shape⟩)] := by
          have hg : getObj σ' c.name_to_variable =
              some (.varDict (getVarDict σ c.name_to_variable ++
                [(name, ⟨name, shape⟩)])) := by
            rw [hσ']
            exact getObj_setObj_self σ c.name_to_variable _ hbv
          unfold getVarDict
          unfold getObj at hg
          rw [hg]
          rfl
        have hlook : (getVarDict σ' c.name_to_variable).lookup name =
            some ⟨name, shape⟩ := by
          rw [hvd]
          exact lookup_append_single_of_none _ _ _ hnone
        have hpn : getStrList σ' c.param_names =
            getStrList σ c.param_names := by
          rw [hσ']
          exact getStrList_congr
            (getObj_setObj_ne σ c.name_to_variable c.param_names _
              (Ne.symm hpv))
        refine ⟨hph, hlook, hpn, ?_⟩
        unfold make_and_register_variable
        rw [if_pos (hpn ▸ hmem), if_pos (by rw [hlook]; rfl)]
        rfl
    · rw [if_neg hmem] at h
      exact absurd h (by simp)

def wcC : Component × Store := allocComponent wcB.2
  { name := "C"
    k_endog := 1
    k_states := 1
    k_posdef := 1
    measurement_error := false
    state_names := ["z"]
    data_names := []
    shock_names := ["w"]
    param_names := ["pa", "pz"]
    exog_names := []
    coords := []
    param_dims := []
    param_info := []
    data_info := []
    name_to_variable := [("pa", ⟨"pa", [some 1]⟩)]
    name_to_data := []
    component_info := [("C", ⟨1, 1, 1, false, none⟩)]
    ssm := SSM.defaultRep 1 1 1 }

def wReg : Placeholder × Store :=
  exceptOkD (make_and_register_variable wcC.2 wcC.1 "pz" [some 3])

set_option maxHeartbeats 1000000 in
theorem claim_C5_witness :
    (exceptIsError (make_and_register_variable wcC.2 wcC.1 "nope" []) =
      true) ∧
    (exceptIsError (make_and_register_variable wcC.2 wcC.1 "pa" []) =
      true) ∧
    (wReg.1 = ⟨"pz", [some 3]⟩ ∧
      (getVarDict wReg.2 wcC.1.name_to_variable).lookup "pz" =
        some ⟨"pz", [some 3]⟩ ∧
      getStrList wReg.2 wcC.1.param_names =
        getStrList wcC.2 wcC.1.param_names ∧
      exceptIsError (make_and_register_variable wReg.2 wcC.1 "pz" []) =
        true) :=
  ⟨(claim_C5 wcC.2 wcC.1 (by decide) "nope" [] []).1 (by decide),
   (claim_C5 wcC.2 wcC.1 (by decide) "pa" [] []).2.1 (by decide),
   (claim_C5 wcC.2 wcC.1 (by decide) "pz" [some 3] []).2.2 wReg.1 wReg.2
     (by decide)⟩


theorem latent_contains_iff (m : StructuralTimeSeries)
    (idata : List (String × List Rat))
    (hnd : (idata.map Prod.fst).Nodup) :
    ∀ p ∈ idata,
      ((latentNames m idata).contains p.1) = (p.2.length == m.k_states) := by
  intro p hp
  unfold latentNames List.contains
  by_cases hm : p.2.length = m.k_states
  · have h1 : p ∈ idata.filter (fun q => q.2.length == m.k_states) :=
      List.mem_filter.mpr ⟨hp, by simp [hm]⟩
    have h2 : p.1 ∈ (idata.filter
        (fun q => q.2.length == m.k_states)).map Prod.fst :=
      List.mem_map_of_mem Prod.fst h1
    rw [List.elem_eq_true_of_mem h2, beq_iff_eq.mpr hm]
  · have h2 : p.1 ∉ (idata.filter
        (fun q => q.2.length == m.k_states)).map Prod.fst := by
      intro hmem
      obtain ⟨q, hqf, hq1⟩ := List.mem_map.mp hmem
      obtain ⟨hq, hqm⟩ := List.mem_filter.mp hqf
      have hqp : q = p := List.inj_on_of_nodup_map hnd hq hp hq1
      rw [hqp] at hqm
      exact hm (beq_iff_eq.mp hqm)
    rw [beq_false_of_ne hm, ← Bool.not_eq_true]
    intro hc
    exact h2 (List.elem_iff.mp hc)

theorem droppedVars_eq (m : StructuralTimeSeries)
    (idata : List (String × List Rat))
    (hnd : (idata.map Prod.fst).Nodup) :
    droppedVars m idata =
      (idata.filter (fun p => !(p.2.length == m.k_states))).map Prod.fst := by
  unfold droppedVars
  rw [List.filter_map]
  have hcong : idata.filter
      ((fun n => !(latentNames m idata).contains n) ∘ Prod.fst) =
      idata.filter (fun p => !(p.2.length == m.k_states)) :=
    List.filter_congr (fun p hp => by
      simp only [Function.comp]
      rw [latent_contains_iff m idata hnd p hp])
  rw [hcong]
  apply List.Nodup.dedup
  exact List.Nodup.sublist (List.Sublist.map Prod.fst (List.filter_sublist _))
    hnd

theorem dropped_length_iff (m : StructuralTimeSeries)
    (idata : List (String × List Rat))
    (hnd : (idata.map Prod.fst).Nodup) :
    ((droppedVars m idata).length = (idata.map Prod.fst).length) ↔
      ∀ p ∈ idata, p.2.length ≠ m.k_states := by
  rw [droppedVars_eq m idata hnd, List.length_map, List.length_map,
    List.filter_length_eq_length]
  constructor
  · intro h p hp hcontra
    have := h p hp
    rw [beq_iff_eq.mpr hcontra] at this
    simp at this
  · intro h p hp
    rw [beq_false_of_ne (h p hp)]
    rfl

/-- Claim C4: extraction raises exactly when no variable of the dataset has
last dimension equal to the model's state count; otherwise it returns
exactly the decomposed versions of the matching variables, the dropped
(warned-about) variables are exactly the non-matching ones, and when every
variable matches nothing is dropped. -/
theorem claim_C4 (m : StructuralTimeSeries)
    (idata : List (String × List Rat))
    (hnd : (idata.map Prod.fst).Nodup) :
    (exceptIsError (extract_components_from_idata m idata) = true ↔
      ∀ p ∈ idata, p.2.length ≠ m.k_states) ∧
    (∀ out, extract_components_from_idata m idata = .ok out →
      out = (idata.filter (fun p => p.2.length == m.k_states)).map
        (fun p => (p.1, hiddenStatesFromData m.component_info p.2)) ∧
      out.map Prod.fst =
        (idata.filter (fun p => p.2.length == m.k_states)).map Prod.fst) ∧
    droppedVars m idata =
      (idata.filter (fun p => !(p.2.length == m.k_states))).map Prod.fst ∧
    ((∀ p ∈ idata, p.2.length = m.k_states) →
      droppedVars m idata = [] ∧
      ∀ out, extract_components_from_idata m idata = .ok out →
        out.map Prod.fst = idata.map Prod.fst) := by
  have hlen := dropped_length_iff m idata hnd
  have hdrop := droppedVars_eq m idata hnd
  refine ⟨?_, ?_, hdrop, ?_⟩
  · by_cases hc : (droppedVars m idata).length = (idata.map Prod.fst).length
    · have herr : exceptIsError (extract_components_from_idata m idata) =
          true := by
        unfold extract_components_from_idata
        rw [if_pos hc]
        rfl
      exact iff_of_true herr (hlen.mp hc)
    · have hok2 : exceptIsError (extract_components_from_idata m idata) =
          false := by
        unfold extract_components_from_idata
        rw [if_neg hc]
        rfl
      refine iff_of_false (by rw [hok2]; simp) (fun hall => hc (hlen.mpr hall))
  · intro out h
    unfold extract_components_from_idata at h
    split at h
    · exact absurd h (by simp)
    · injection h with h1
      refine ⟨h1.symm, ?_⟩
      rw [← h1, List.map_map]
      rfl
  · intro hall
    have h0 : idata.filter (fun p => !(p.2.length == m.k_states)) = [] :=
      List.filter_eq_nil.mpr (fun p hp => by
        rw [beq_iff_eq.mpr (hall p hp)]
        simp)
    refine ⟨by rw [hdrop, h0]; rfl, ?_⟩
    intro out h
    unfold extract_components_from_idata at h
    split at h
    · exact absurd h (by simp)
    · injection h with h1
      rw [← h1, List.map_map,
        show idata.filter (fun p => p.2.length == m.k_states) = idata from
          List.filter_eq_self.mpr (fun p hp => by
            rw [beq_iff_eq.mpr (hall p hp)])]
      rfl

def wSTS : StructuralTimeSeries :=
  { name := "data"
    k_endog := 1
    k_states := 2
    k_posdef := 1
    state_names := ["level", "season"]
    data_names := []
    shock_names := []
    param_names := ["P0"]
    exog_names := []
    param_dims := []
    coords := []
    param_info := []
    data_info := []
    component_info := [("A", ⟨1, 1, 1, true, some [1]⟩),
      ("B", ⟨1, 1, 0, false, some [1]⟩)]
    measurement_error := false
    name_to_variable := []
    name_to_data := []
    needs_exog_data := false
    ssm := SSM.defaultRep 1 2 1 }

def wIdata : List (String × List Rat) := [("x", [1, 2]), ("y", [1, 2, 3])]

def wIdata2 : List (String × List Rat) := [("x", [1, 2]), ("z", [4, 5])]

def wExtract : List (String × List Rat) :=
  exceptOkD (extract_components_from_idata wSTS wIdata)

def wExtract2 : List (String × List Rat) :=
  exceptOkD (extract_components_from_idata wSTS wIdata2)

theorem claim_C4_witness :
    (exceptIsError (extract_components_from_idata wSTS wIdata) = true ↔
      ∀ p ∈ wIdata, p.2.length ≠ wSTS.k_states) ∧
    (wExtract = (wIdata.filter
        (fun p => p.2.length == wSTS.k_states)).map
        (fun p => (p.1, hiddenStatesFromData wSTS.component_info p.2)) ∧
      wExtract.map Prod.fst =
        (wIdata.filter (fun p => p.2.length == wSTS.k_states)).map
          Prod.fst) ∧
    droppedVars wSTS wIdata =
      (wIdata.filter (fun p => !(p.2.length == wSTS.k_states))).map
        Prod.fst ∧
    (droppedVars wSTS wIdata2 = [] ∧
      wExtract2.map Prod.fst = wIdata2.map Prod.fst) :=
  have h1 := claim_C4 wSTS wIdata (by decide)
  have h2 := claim_C4 wSTS wIdata2 (by decide)
  ⟨h1.1, h1.2.1 wExtract rfl, h1.2.2.1,
    ⟨(h2.2.2.2 (by decide)).1,
     (h2.2.2.2 (by decide)).2 wExtract2 rfl⟩⟩

/-- The worked example of the spec: level-trend of order 2 with one
innovation, plus measurement error, composed and built. -/
def c8Model : Except String StructuralTimeSeries := do
  let ap ← levelTrendComponent [] 2 (some 1) "LevelTrend"
  let bp ← measurementErrorComponent ap.2 "MeasurementError"
  let cp ← Component.add bp.2 ap.1 bp.1
  pure (Component.build cp.2 cp.1 none).1

/-- Claim C8: the example model has two states named `level` and `trend`,
and its parameter names are exactly `initial_trend`, `sigma_trend`,
`sigma_MeasurementError` and the implicit `P0` (in particular it contains
the four names the claim lists). -/
theorem claim_C8 :
    c8Model.map (fun m => (m.k_states, m.state_names, m.param_names)) =
      .ok (2, ["level", "trend"],
        ["initial_trend", "sigma_trend", "sigma_MeasurementError", "P0"])
    := rfl

/-- A noise-free component: `LevelTrendComponent(order=2,
innovations_order=0)` has two states and `k_posdef = 0`. -/
def ltZero : Component × Store :=
  exceptOkD (levelTrendComponent [] 2 (some 0) "LevelTrend")

/-- Claim C7 counterexample: on the two-state noise-free level-trend
component the dummy selection matrix installed by `build` has shape
`(1, k_states, 1) = (1, 2, 1)`, not `1 x 1` as the claim states. -/
theorem claim_C7_counterexample :
    ltZero.1.ssm.k_posdef = 0 ∧
    (Component.build ltZero.2 ltZero.1 none).1.ssm.selection.shape =
      (1, 2, 1) ∧
    (Component.build ltZero.2 ltZero.1 none).1.ssm.selection.shape ≠
      (1, 1, 1) := by decide

/-- Claim C7 (amended): when a component with `k_posdef == 0` is built, the
model's state covariance is replaced by a zero-valued matrix of shape
`(1, 1, 1)` and its selection matrix by a zero-valued dummy of shape
`(1, k_states, 1)` (1 x 1 only when the model has a single state), with the
model-level `k_posdef` forced to one; with `k_posdef > 0` both matrices are
left exactly as assembled. -/
theorem claim_C7 (σ : Store) (c : Component) :
    (c.ssm.k_posdef = 0 →
      (Component.build σ c none).1.ssm.state_cov.shape = (1, 1, 1) ∧
      (∀ t i j,
        (Component.build σ c none).1.ssm.state_cov.entry t i j = .lit 0) ∧
      (Component.build σ c none).1.ssm.selection.shape =
        (1, c.ssm.k_states, 1) ∧
      (∀ t i j,
        (Component.build σ c none).1.ssm.selection.entry t i j = .lit 0) ∧
      (Component.build σ c none).1.ssm.k_posdef = 1) ∧
    (c.ssm.k_posdef ≠ 0 →
      (Component.build σ c none).1.ssm.state_cov = c.ssm.state_cov ∧
      (Component.build σ c none).1.ssm.selection = c.ssm.selection) := by
  have hssm : (Component.build σ c none).1.ssm =
      (if c.ssm.k_posdef = 0 then
        ({ c.ssm with
            k_posdef := max 1 c.ssm.k_posdef
            state_cov := Mat3.zeros (1, 1, 1)
            selection := Mat3.zeros (1, c.ssm.k_states, 1) } : SSM)
      else c.ssm) := rfl
  constructor
  · intro h
    rw [hssm, if_pos h]
    exact ⟨rfl, fun _ _ _ => rfl, rfl, fun _ _ _ => rfl, by rw [h]; rfl⟩
  · intro h
    rw [hssm, if_neg h]
    exact ⟨rfl, rfl⟩

theorem claim_C7_witness :
    ((Component.build ltZero.2 ltZero.1 none).1.ssm.state_cov.shape =
        (1, 1, 1) ∧
      (∀ t i j, (Component.build ltZero.2 ltZero.1
        none).1.ssm.state_cov.entry t i j = .lit 0) ∧
      (Component.build ltZero.2 ltZero.1 none).1.ssm.selection.shape =
        (1, ltZero.1.ssm.k_states, 1) ∧
      (∀ t i j, (Component.build ltZero.2 ltZero.1
        none).1.ssm.selection.entry t i j = .lit 0) ∧
      (Component.build ltZero.2 ltZero.1 none).1.ssm.k_posdef = 1) ∧
    ((Component.build wcB.2 wcA.1 none).1.ssm.state_cov =
        wcA.1.ssm.state_cov ∧
      (Component.build wcB.2 wcA.1 none).1.ssm.selection =
        wcA.1.ssm.selection) :=
  ⟨(claim_C7 ltZero.2 ltZero.1).1 (by decide),
   (claim_C7 wcB.2 wcA.1).2 (by decide)⟩

/-- Claim C2 counterexample: `FrequencySeasonality(season_length=7)` takes
the default `n = 7 // 2 = 3`, yet `7 / 3` is not `2.0`, so
`last_state_not_identified` is `false` and all `2 n = 6` states receive
parameters (`n_coefs = 6`), contradicting the claimed `true` / `2 n - 1`. -/
theorem claim_C2_counterexample :
    (frequencySeasonality [] 7 none none true).map
      (fun p => (p.1.n, p.1.last_state_not_identified, p.1.n_coefs,
        p.1.comp.k_states)) = .ok (3, false, 6, 6) := by
  with_unfolding_all rfl

theorem except_bind_ok {e a b : Type} {x : Except e a} {f : a → Except e b} {v : b}
    (h : x >>= f = Except.ok v) : ∃ w, x = Except.ok w ∧ f w = Except.ok v := by
  cases x with
  | error err =>
    exact absurd h (by simp [Bind.bind, Except.bind])
  | ok w =>
    exact ⟨w, rfl, by simpa [Bind.bind, Except.bind] using h⟩

theorem except_pure_ok {e b : Type} {x y : b}
    (h : (pure x : Except e b) = Except.ok y) : x = y := by
  cases h
  rfl

theorem freqSeasonality_ok (σ : Store) (sl : Rat) (nOpt : Option Nat)
    (nameOpt : Option String) (innov : Bool) (fc : FreqSeasonality) (σ' : Store)
    (h : frequencySeasonality σ sl nOpt nameOpt innov = .ok (fc, σ')) :
    fc.n = nOpt.getD (Int.floor (sl / 2)).toNat ∧
    fc.season_length = sl ∧
    fc.innovations = innov ∧
    fc.last_state_not_identified = decide (sl / (fc.n : Rat) = 2) ∧
    fc.n_coefs = fc.n * 2 - (if decide (sl / (fc.n : Rat) = 2) = true then 1 else 0) ∧
    fc.comp.k_states = fc.n * 2 ∧
    fc.n ≠ 0 := by
  unfold frequencySeasonality at h
  by_cases h0 : nOpt.getD (Int.floor (sl / 2)).toNat = 0
  · rw [if_pos h0] at h
    exact absurd h (by simp [Bind.bind, Except.bind, throw, throwThe, MonadExceptOf.throw])
  · rw [if_neg h0] at h
    cases innov with
    | true =>
      obtain ⟨u1, hu1, h⟩ := except_bind_ok h
      obtain ⟨r1, hr1, h⟩ := except_bind_ok h
      obtain ⟨r2, hr2, h⟩ := except_bind_ok h
      have hp := except_pure_ok h
      rw [Prod.mk.injEq] at hp
      obtain ⟨hfc, hσ⟩ := hp
      subst hfc
      exact ⟨rfl, rfl, rfl, rfl, rfl, rfl, h0⟩
    | false =>
      obtain ⟨u1, hu1, h⟩ := except_bind_ok h
      obtain ⟨r1, hr1, h⟩ := except_bind_ok h
      have hp := except_pure_ok h
      rw [Prod.mk.injEq] at hp
      obtain ⟨hfc, hσ⟩ := hp
      subst hfc
      exact ⟨rfl, rfl, rfl, rfl, rfl, rfl, h0⟩

theorem floor_half_toNat (s : Nat) : (Int.floor ((s : Rat) / 2)).toNat = s / 2 := by
  have h : ((s : Rat) / 2) = (((s : Int) : Rat) / ((2 : Nat) : Rat)) := by
    norm_num
  rw [h, Rat.floor_intCast_div_natCast]
  omega

theorem ratio_eq_two_iff (s n : Nat) (hn : n ≠ 0) :
    ((s : Rat) / (n : Rat) = 2) ↔ s = 2 * n := by
  rw [div_eq_iff (by exact_mod_cast hn)]
  constructor
  · intro h
    exact_mod_cast h
  · intro h
    exact_mod_cast h

/-- Claim C2 (amended): `FrequencySeasonality(season_length=s)` with
innovations: at the default `n = s // 2`, `last_state_not_identified` is set
exactly when `s` is even (the test `s / n == 2.0` fails for odd `s`), with
`2n - 1` of the `2n` states parameterized when `s` is even and all `2n` when
odd; with an explicit `n`, `last_state_not_identified` is `True` exactly when
`s == 2 * n`, and `n_coefs` is `2n - 1` in that case and `2n` otherwise (in
particular every `n` with `2n < s` parameterizes all `2n` states). -/
theorem claim_C2 (σ : Store) (s n : Nat) (fcD fcE : FreqSeasonality)
    (σ1 σ2 : Store) :
    (frequencySeasonality σ (s : Rat) none none true = .ok (fcD, σ1) →
      fcD.n = s / 2 ∧
      fcD.last_state_not_identified = decide (s % 2 = 0) ∧
      fcD.n_coefs = 2 * fcD.n - (if s % 2 = 0 then 1 else 0) ∧
      fcD.comp.k_states = 2 * fcD.n) ∧
    (frequencySeasonality σ (s : Rat) (some n) none true = .ok (fcE, σ2) →
      fcE.n = n ∧
      fcE.last_state_not_identified = decide (s = 2 * n) ∧
      fcE.n_coefs = 2 * n - (if s = 2 * n then 1 else 0) ∧
      fcE.comp.k_states = 2 * n) := by
  constructor
  · intro hD
    obtain ⟨hDn, _, _, hDl, hDc, hDk, hDnz⟩ :=
      freqSeasonality_ok σ (s : Rat) none none true fcD σ1 hD
    have hDn2 : fcD.n = s / 2 := hDn.trans (floor_half_toNat s)
    have hne : s / 2 ≠ 0 := by
      rw [← hDn2]
      exact hDnz
    have hDiff : ((s : Rat) / ((fcD.n : Nat) : Rat) = 2) ↔ (s % 2 = 0) := by
      rw [hDn2, ratio_eq_two_iff s (s / 2) hne]
      omega
    refine ⟨hDn2, ?_, ?_, by omega⟩
    · rw [hDl]
      exact decide_eq_decide.mpr hDiff
    · rw [hDc, Nat.mul_comm]
      congr 1
      by_cases he : s % 2 = 0
      · rw [if_pos (decide_eq_true (hDiff.mpr he)), if_pos he]
      · rw [if_neg ?c1, if_neg he]
        case c1 =>
          intro hh
          exact he (hDiff.mp (of_decide_eq_true hh))
  · intro hE
    obtain ⟨hEn, _, _, hEl, hEc, hEk, hEnz⟩ :=
      freqSeasonality_ok σ (s : Rat) (some n) none true fcE σ2 hE
    have hEn2 : fcE.n = n := hEn
    have hn0 : n ≠ 0 := by
      rw [← hEn2]
      exact hEnz
    have hEiffn : ((s : Rat) / ((n : Nat) : Rat) = 2) ↔ (s = 2 * n) :=
      ratio_eq_two_iff s n hn0
    refine ⟨hEn2, ?_, ?_, by omega⟩
    · rw [hEl, hEn2]
      exact decide_eq_decide.mpr hEiffn
    · rw [hEc, hEn2, Nat.mul_comm]
      congr 1
      by_cases he : s = 2 * n
      · rw [if_pos (decide_eq_true (hEiffn.mpr he)), if_pos he]
      · rw [if_neg ?c2, if_neg he]
        case c2 =>
          intro hh
          exact he (hEiffn.mp (of_decide_eq_true hh))

def wFreqD : FreqSeasonality × Store :=
  exceptOkD (frequencySeasonality [] (4 : Rat) none none true)

def wFreqE2 : FreqSeasonality × Store :=
  exceptOkD (frequencySeasonality [] (4 : Rat) (some 2) none true)

set_option maxHeartbeats 1000000 in
/-- Witness for C2: `season_length = 4` with the default `n = 2` (even,
saturated) and with the same `n = 2` passed explicitly (the `s == 2n`
biconditional fires on both). -/
theorem claim_C2_witness :
    (wFreqD.1.n = 4 / 2 ∧
     wFreqD.1.last_state_not_identified = decide (4 % 2 = 0) ∧
     wFreqD.1.n_coefs = 2 * wFreqD.1.n - (if 4 % 2 = 0 then 1 else 0) ∧
     wFreqD.1.comp.k_states = 2 * wFreqD.1.n) ∧
    (wFreqE2.1.n = 2 ∧
     wFreqE2.1.last_state_not_identified = decide (4 = 2 * 2) ∧
     wFreqE2.1.n_coefs = 2 * 2 - (if 4 = 2 * 2 then 1 else 0) ∧
     wFreqE2.1.comp.k_states = 2 * 2) := by
  have h := claim_C2 [] 4 2 wFreqD.1 wFreqE2.1 wFreqD.2 wFreqE2.2
  exact ⟨h.1 (by with_unfolding_all rfl), h.2 (by with_unfolding_all rfl)⟩

def litValue : MatEntry → Rat
  | .lit q => q
  | _ => 0

def compTransitionMatrix (c : Component) (m : Nat) :
    Matrix (Fin m) (Fin m) Rat :=
  Matrix.of fun i j => litValue (c.ssm.transition.entry 0 i j)

def seasonalT (m : Nat) : Matrix (Fin (m + 1)) (Fin (m + 1)) Rat :=
  Matrix.of fun i j => seasonalTransitionEntry (m + 1) true i j

def seasonalPhi (m : Nat) (x : Fin (m + 1) → Rat) : Fin (m + 1) → Rat :=
  fun i => if (i : Nat) = 0 then -(∑ j, x j) else x ⟨(i : Nat) - 1, by omega⟩

def seasonalShift (m : Nat) (y : Fin (m + 2) → Rat) : Fin (m + 2) → Rat :=
  fun j => y ⟨((j : Nat) + (m + 1)) % (m + 2), Nat.mod_lt _ (by omega)⟩

def seasonalPsi (m : Nat) (x : Fin (m + 1) → Rat) : Fin (m + 2) → Rat :=
  fun j => if h : (j : Nat) < m + 1 then x ⟨j, h⟩ else -(∑ i, x i)

theorem seasonalPsi_mk_lt (m : Nat) (x : Fin (m + 1) → Rat) (a : Nat)
    (h : a < m + 2) (h2 : a < m + 1) :
    seasonalPsi m x ⟨a, h⟩ = x ⟨a, h2⟩ := dif_pos h2

theorem seasonalPsi_mk_ge (m : Nat) (x : Fin (m + 1) → Rat) (a : Nat)
    (h : a < m + 2) (h2 : ¬ a < m + 1) :
    seasonalPsi m x ⟨a, h⟩ = -(∑ i, x i) := dif_neg h2

theorem seasonalShift_apply (m : Nat) (y : Fin (m + 2) → Rat) (j : Fin (m + 2)) :
    seasonalShift m y j =
      y ⟨((j : Nat) + (m + 1)) % (m + 2), Nat.mod_lt _ (by omega)⟩ := rfl

theorem seasonalPsi_inj (m : Nat) (x x' : Fin (m + 1) → Rat)
    (h : seasonalPsi m x = seasonalPsi m x') : x = x' := by
  funext i
  have hi := congrFun h ⟨(i : Nat), by omega⟩
  rw [seasonalPsi_mk_lt m x _ _ i.isLt, seasonalPsi_mk_lt m x' _ _ i.isLt] at hi
  simpa using hi

theorem seasonalPhi_sum (m : Nat) (x : Fin (m + 1) → Rat) :
    ∑ i, seasonalPhi m x i = -(x (Fin.last m)) := by
  rw [Fin.sum_univ_succ]
  have h1 : seasonalPhi m x 0 = -(∑ j, x j) := by
    simp [seasonalPhi]
  have h2 : ∀ i : Fin m, seasonalPhi m x i.succ = x i.castSucc := by
    intro i
    simp only [seasonalPhi]
    rw [if_neg (by simp [Fin.val_succ])]
    congr 1
  rw [h1, Finset.sum_congr rfl (fun i _ => h2 i), Fin.sum_univ_castSucc]
  ring

theorem seasonalPsi_phi (m : Nat) (x : Fin (m + 1) → Rat) :
    seasonalPsi m (seasonalPhi m x) = seasonalShift m (seasonalPsi m x) := by
  funext j
  rw [seasonalShift_apply]
  by_cases hj : (j : Nat) < m + 1
  · rw [show j = (⟨(j : Nat), by omega⟩ : Fin (m + 2)) from rfl,
      seasonalPsi_mk_lt m (seasonalPhi m x) _ (by omega) hj]
    by_cases hj0 : (j : Nat) = 0
    · have hmod : ¬ ((j : Nat) + (m + 1)) % (m + 2) < m + 1 := by
        rw [hj0, Nat.zero_add, Nat.mod_eq_of_lt (by omega)]
        omega
      rw [seasonalPsi_mk_ge m x _ _ hmod]
      simp only [seasonalPhi]
      rw [if_pos hj0]
    · have hmod : ((j : Nat) + (m + 1)) % (m + 2) = (j : Nat) - 1 := by
        have h1 : (j : Nat) + (m + 1) = ((j : Nat) - 1) + 1 * (m + 2) := by omega
        rw [h1, Nat.add_mul_mod_self_right, Nat.mod_eq_of_lt (by omega)]
      rw [seasonalPsi_mk_lt m x _ _ (by rw [hmod]; omega)]
      simp only [seasonalPhi]
      rw [if_neg hj0]
      congr 1
      apply Fin.ext
      exact hmod.symm
  · rw [show j = (⟨(j : Nat), by omega⟩ : Fin (m + 2)) from rfl,
      seasonalPsi_mk_ge m (seasonalPhi m x) _ (by omega) hj]
    have hmod : ((j : Nat) + (m + 1)) % (m + 2) = m := by
      have hjv : (j : Nat) = m + 1 := by omega
      have h1 : (j : Nat) + (m + 1) = m + 1 * (m + 2) := by omega
      rw [h1, Nat.add_mul_mod_self_right, Nat.mod_eq_of_lt (by omega)]
    rw [seasonalPsi_mk_lt m x _ _ (by rw [hmod]; omega)]
    rw [seasonalPhi_sum, neg_neg]
    congr 1
    apply Fin.ext
    exact hmod.symm

theorem seasonalShift_iterate (m p : Nat) (y : Fin (m + 2) → Rat) (j : Fin (m + 2)) :
    (seasonalShift m)^[p] y j =
      y ⟨((j : Nat) + p * (m + 1)) % (m + 2), Nat.mod_lt _ (by omega)⟩ := by
  induction p generalizing j with
  | zero =>
    simp only [Function.iterate_zero, id_eq]
    congr 1
    apply Fin.ext
    show (j : Nat) = ((j : Nat) + 0 * (m + 1)) % (m + 2)
    simp [Nat.mod_eq_of_lt j.isLt]
  | succ p ih =>
    rw [Function.iterate_succ_apply', seasonalShift_apply, ih]
    congr 1
    apply Fin.ext
    show (((j : Nat) + (m + 1)) % (m + 2) + p * (m + 1)) % (m + 2)
      = ((j : Nat) + (p + 1) * (m + 1)) % (m + 2)
    rw [Nat.mod_add_mod]
    congr 1
    ring

theorem seasonalPhi_iterate_id (m : Nat) (x : Fin (m + 1) → Rat) :
    (seasonalPhi m)^[m + 2] x = x := by
  have hcomm : ∀ p (x : Fin (m + 1) → Rat),
      seasonalPsi m ((seasonalPhi m)^[p] x)
        = (seasonalShift m)^[p] (seasonalPsi m x) := by
    intro p
    induction p with
    | zero => intro x; simp
    | succ p ih =>
      intro x
      rw [Function.iterate_succ_apply, Function.iterate_succ_apply, ih, seasonalPsi_phi]
  apply seasonalPsi_inj
  rw [hcomm]
  funext j
  rw [seasonalShift_iterate]
  congr 1
  apply Fin.ext
  show ((j : Nat) + (m + 2) * (m + 1)) % (m + 2) = (j : Nat)
  have h1 : (j : Nat) + (m + 2) * (m + 1) = (j : Nat) + (m + 1) * (m + 2) := by ring
  rw [h1, Nat.add_mul_mod_self_right, Nat.mod_eq_of_lt j.isLt]

theorem seasonalT_mulVec (m : Nat) (x : Fin (m + 1) → Rat) :
    (seasonalT m).mulVec x = seasonalPhi m x := by
  funext i
  rw [show (seasonalT m).mulVec x i
    = ∑ j : Fin (m + 1),
        seasonalTransitionEntry (m + 1) true (i : Nat) (j : Nat) * x j from rfl]
  by_cases hi : (i : Nat) = 0
  · simp only [seasonalTransitionEntry, if_true, seasonalPhi]
    rw [if_pos hi]
    rw [Finset.sum_congr rfl (fun j _ => by rw [if_pos hi, neg_one_mul])]
    simp
  · have hterm : ∀ j : Fin (m + 1),
        seasonalTransitionEntry (m + 1) true (i : Nat) (j : Nat) * x j
          = if j = (⟨(i : Nat) - 1, by omega⟩ : Fin (m + 1)) then x j else 0 := by
      intro j
      show ((if (i : Nat) = 0 then (-1 : Rat)
        else if (j : Nat) + 1 = (i : Nat) then 1 else 0)) * x j = _
      rw [if_neg hi]
      by_cases hj : (j : Nat) + 1 = (i : Nat)
      · have hje : j = (⟨(i : Nat) - 1, by omega⟩ : Fin (m + 1)) := by
          apply Fin.ext
          show (j : Nat) = (i : Nat) - 1
          omega
        rw [if_pos hj, if_pos hje, one_mul]
      · have hne : ¬ j = (⟨(i : Nat) - 1, by omega⟩ : Fin (m + 1)) := by
          intro he
          apply hj
          have hv : (j : Nat) = (i : Nat) - 1 := by rw [he]
          omega
        rw [if_neg hj, if_neg hne, zero_mul]
    rw [Finset.sum_congr rfl (fun j _ => hterm j)]
    rw [Fintype.sum_ite_eq']
    simp only [seasonalPhi]
    rw [if_neg hi]

theorem seasonalT_pow_mulVec (m p : Nat) (x : Fin (m + 1) → Rat) :
    ((seasonalT m) ^ p).mulVec x = (seasonalPhi m)^[p] x := by
  induction p generalizing x with
  | zero => simp [Matrix.one_mulVec]
  | succ p ih =>
    rw [pow_succ, ← Matrix.mulVec_mulVec, seasonalT_mulVec, ih,
      Function.iterate_succ_apply]

theorem seasonalT_pow (m : Nat) : (seasonalT m) ^ (m + 2) = 1 := by
  ext i j
  have h := congrFun (seasonalT_pow_mulVec m (m + 2) (Pi.single j 1)) i
  rw [seasonalPhi_iterate_id] at h
  rw [Matrix.mulVec_single] at h
  simp only [Pi.single_apply, mul_one] at h
  rw [Matrix.one_apply]
  rw [h]

/-- Claim C3: for every `s >= 2`, any innovations setting and any name,
`TimeSeasonality(season_length=s, remove_first_state=True)` has
`k_states = s - 1`, and its transition matrix `T` satisfies `T ^ s = 1`:
applying `T` for `s` consecutive steps with zero shocks returns every state
vector to its original value. -/
theorem claim_C3 (σ : Store) (s : Nat) (hs : 2 ≤ s) (innov : Bool)
    (nameOpt : Option String) (c : Component) (σ' : Store)
    (h : timeSeasonality σ s innov nameOpt none true = .ok (c, σ')) :
    c.k_states = s - 1 ∧
    compTransitionMatrix c (s - 1) ^ s = 1 ∧
    ∀ x : Fin (s - 1) → Rat,
      ((compTransitionMatrix c (s - 1)).mulVec)^[s] x = x := by
  obtain ⟨t, rfl⟩ : ∃ t, s = t + 2 := ⟨s - 2, by omega⟩
  unfold timeSeasonality at h
  obtain ⟨r1, hr1, h⟩ := except_bind_ok h
  have hr1v := except_pure_ok hr1
  rw [List.range_succ_eq_map, List.map_cons] at hr1v
  subst hr1v
  cases innov with
  | true =>
    obtain ⟨r2, hr2, h⟩ := except_bind_ok h
    obtain ⟨r3, hr3, h⟩ := except_bind_ok h
    obtain ⟨r4, hr4, h⟩ := except_bind_ok h
    have hp := except_pure_ok h
    rw [Prod.mk.injEq] at hp
    obtain ⟨hc, hσ⟩ := hp
    subst hc
    refine ⟨rfl, seasonalT_pow t, ?_⟩
    intro x
    show ((seasonalT t).mulVec)^[t + 2] x = x
    rw [funext (seasonalT_mulVec t)]
    exact seasonalPhi_iterate_id t x
  | false =>
    obtain ⟨r2, hr2, h⟩ := except_bind_ok h
    obtain ⟨r3, hr3, h⟩ := except_bind_ok h
    have hp := except_pure_ok h
    rw [Prod.mk.injEq] at hp
    obtain ⟨hc, hσ⟩ := hp
    subst hc
    refine ⟨rfl, seasonalT_pow t, ?_⟩
    intro x
    show ((seasonalT t).mulVec)^[t + 2] x = x
    rw [funext (seasonalT_mulVec t)]
    exact seasonalPhi_iterate_id t x

def wTS : Component × Store :=
  exceptOkD (timeSeasonality [] 3 true none none true)

set_option maxHeartbeats 1000000 in
/-- Witness for C3: `season_length = 3` with the first state removed, the
periodicity law checked as a matrix power and on a concrete state vector. -/
theorem claim_C3_witness :
    2 ≤ 3 ∧ wTS.1.k_states = 3 - 1 ∧
    compTransitionMatrix wTS.1 (3 - 1) ^ 3 = 1 ∧
    ((compTransitionMatrix wTS.1 (3 - 1)).mulVec)^[3]
        (fun i : Fin (3 - 1) => ((i : Nat) : Rat))
      = (fun i : Fin (3 - 1) => ((i : Nat) : Rat)) := by
  have h := claim_C3 [] 3 (by decide) true none wTS.1 wTS.2
    (by with_unfolding_all rfl)
  exact ⟨by decide, h.1, h.2.1, h.2.2 (fun i : Fin (3 - 1) => ((i : Nat) : Rat))⟩
